import Mathlib

/-!
Verification of the "Gold-Liquid-Design" rendering core.

The development shallowly embeds the numerical core of the repository:
the simplex-noise evaluators (`snoise3` from the vertex shader embedded in
`src/main.js`, `snoise4` and `fbm` from the vertex shader in
`src/shaders/fragment.glsl`), the vertex deformers, and the fragment
shading pipeline of `src/shaders/fragment.glsl`.  GLSL float arithmetic is
modelled as exact arithmetic in a linear ordered field with a floor
operation (instantiable at `ℚ` for computation and at `ℝ`); the
transcendental parts (`sin`, `sqrt`, `pow` with real exponent) are modelled
over `ℝ` with `Real.sin`, `Real.sqrt` and `Real.rpow`.
-/

namespace GoldLiquid

set_option linter.unusedSectionVars false

/-- A 2-component vector (GLSL `vec2`). -/
@[ext]
structure Vec2 (K : Type) where
  x : K
  y : K
deriving DecidableEq

/-- A 3-component vector (GLSL `vec3`). -/
@[ext]
structure Vec3 (K : Type) where
  x : K
  y : K
  z : K
deriving DecidableEq

/-- A 4-component vector (GLSL `vec4`). -/
@[ext]
structure Vec4 (K : Type) where
  x : K
  y : K
  z : K
  w : K
deriving DecidableEq

variable {K : Type} [LinearOrderedField K] [FloorRing K]

instance : Add (Vec3 K) := ⟨fun a b => ⟨a.x + b.x, a.y + b.y, a.z + b.z⟩⟩

instance : Sub (Vec3 K) := ⟨fun a b => ⟨a.x - b.x, a.y - b.y, a.z - b.z⟩⟩

instance : Neg (Vec3 K) := ⟨fun a => ⟨-a.x, -a.y, -a.z⟩⟩

/-- Multiplication of a `vec3` by a scalar (GLSL `v * s`). -/
def Vec3.scale (s : K) (v : Vec3 K) : Vec3 K := ⟨v.x * s, v.y * s, v.z * s⟩

/-- Broadcast addition of a scalar to a `vec3` (GLSL `v + s`). -/
def Vec3.addK (v : Vec3 K) (s : K) : Vec3 K := ⟨v.x + s, v.y + s, v.z + s⟩

/-- GLSL `dot` on `vec3`. -/
def dot3 (a b : Vec3 K) : K := a.x * b.x + a.y * b.y + a.z * b.z

/-- Multiplication of a `vec4` by a scalar (GLSL `v * s`). -/
def Vec4.scale (s : K) (v : Vec4 K) : Vec4 K := ⟨v.x * s, v.y * s, v.z * s, v.w * s⟩

/-- GLSL `dot` on `vec4`. -/
def dot4 (a b : Vec4 K) : K := a.x * b.x + a.y * b.y + a.z * b.z + a.w * b.w

/-- GLSL `floor`, returned in the field. -/
def glslFloor (x : K) : K := (⌊x⌋ : ℤ)

/-- GLSL `fract x = x - floor x`. -/
def glslFract (x : K) : K := x - glslFloor x

/-- GLSL `step edge x`: `0` when `x < edge`, else `1`. -/
def glslStep (edge x : K) : K := if x < edge then 0 else 1

/-- GLSL `clamp x lo hi = min (max x lo) hi`. -/
def glslClamp (x lo hi : K) : K := min (max x lo) hi

/-- GLSL `mix a b t = a * (1 - t) + b * t`. -/
def glslMix (a b t : K) : K := a * (1 - t) + b * t

/-- GLSL `smoothstep e0 e1 x`. -/
def smoothstep (e0 e1 x : K) : K :=
  let t := glslClamp ((x - e0) / (e1 - e0)) 0 1
  t * t * (3 - 2 * t)

/-! ### 3D simplex noise (vertex shader embedded in `src/main.js`, lines 170-229) -/

/-- `mod289v3` of `src/main.js`: `x - floor(x * (1.0/289.0)) * 289.0`, componentwise. -/
def mod289v3 (x : Vec3 K) : Vec3 K :=
  ⟨x.x - glslFloor (x.x * (1 / 289)) * 289,
   x.y - glslFloor (x.y * (1 / 289)) * 289,
   x.z - glslFloor (x.z * (1 / 289)) * 289⟩

/-- `mod289v4` of `src/main.js`. -/
def mod289v4 (x : Vec4 K) : Vec4 K :=
  ⟨x.x - glslFloor (x.x * (1 / 289)) * 289,
   x.y - glslFloor (x.y * (1 / 289)) * 289,
   x.z - glslFloor (x.z * (1 / 289)) * 289,
   x.w - glslFloor (x.w * (1 / 289)) * 289⟩

/-- `permutev4` of `src/main.js`: `mod289v4(((x*34.0)+10.0)*x)`. -/
def permutev4 (x : Vec4 K) : Vec4 K :=
  mod289v4 ⟨((x.x * 34) + 10) * x.x, ((x.y * 34) + 10) * x.y,
            ((x.z * 34) + 10) * x.z, ((x.w * 34) + 10) * x.w⟩

/-- `taylorInvSqrtv4` of `src/main.js`: `1.79284291400159 - 0.85373472095314 * r`. -/
def taylorInvSqrtv4 (r : Vec4 K) : Vec4 K :=
  ⟨1.79284291400159 - 0.85373472095314 * r.x,
   1.79284291400159 - 0.85373472095314 * r.y,
   1.79284291400159 - 0.85373472095314 * r.z,
   1.79284291400159 - 0.85373472095314 * r.w⟩

/-- The 3D simplex noise `snoise(vec3)` of `src/main.js` (42-scaled variant),
transcribed swizzle-by-swizzle.  The constants are the source literals, in
particular `n_ = 0.142857142857` exactly as written. -/
def snoise3 (v : Vec3 K) : K :=
  let Cx : K := 1 / 6
  let Cy : K := 1 / 3
  let D : Vec4 K := ⟨0, 0.5, 1, 2⟩
  let s := (v.x + v.y + v.z) * Cy
  let i : Vec3 K := ⟨glslFloor (v.x + s), glslFloor (v.y + s), glslFloor (v.z + s)⟩
  let t := (i.x + i.y + i.z) * Cx
  let x0 : Vec3 K := ⟨v.x - i.x + t, v.y - i.y + t, v.z - i.z + t⟩
  let g : Vec3 K := ⟨glslStep x0.y x0.x, glslStep x0.z x0.y, glslStep x0.x x0.z⟩
  let l : Vec3 K := ⟨1 - g.x, 1 - g.y, 1 - g.z⟩
  let i1 : Vec3 K := ⟨min g.x l.z, min g.y l.x, min g.z l.y⟩
  let i2 : Vec3 K := ⟨max g.x l.z, max g.y l.x, max g.z l.y⟩
  let x1 : Vec3 K := ⟨x0.x - i1.x + Cx, x0.y - i1.y + Cx, x0.z - i1.z + Cx⟩
  let x2 : Vec3 K := ⟨x0.x - i2.x + Cy, x0.y - i2.y + Cy, x0.z - i2.z + Cy⟩
  let x3 : Vec3 K := ⟨x0.x - D.y, x0.y - D.y, x0.z - D.y⟩
  let im : Vec3 K := mod289v3 i
  let q1 : Vec4 K := permutev4 ⟨im.z + 0, im.z + i1.z, im.z + i2.z, im.z + 1⟩
  let q2 : Vec4 K := permutev4
    ⟨q1.x + im.y + 0, q1.y + im.y + i1.y, q1.z + im.y + i2.y, q1.w + im.y + 1⟩
  let p : Vec4 K := permutev4
    ⟨q2.x + im.x + 0, q2.y + im.x + i1.x, q2.z + im.x + i2.x, q2.w + im.x + 1⟩
  let n_ : K := 0.142857142857
  let ns : Vec3 K := ⟨n_ * D.w - D.x, n_ * D.y - D.z, n_ * D.z - D.x⟩
  let j : Vec4 K :=
    ⟨p.x - 49 * glslFloor (p.x * ns.z * ns.z), p.y - 49 * glslFloor (p.y * ns.z * ns.z),
     p.z - 49 * glslFloor (p.z * ns.z * ns.z), p.w - 49 * glslFloor (p.w * ns.z * ns.z)⟩
  let x_ : Vec4 K :=
    ⟨glslFloor (j.x * ns.z), glslFloor (j.y * ns.z), glslFloor (j.z * ns.z),
     glslFloor (j.w * ns.z)⟩
  let y_ : Vec4 K :=
    ⟨glslFloor (j.x - 7 * x_.x), glslFloor (j.y - 7 * x_.y), glslFloor (j.z - 7 * x_.z),
     glslFloor (j.w - 7 * x_.w)⟩
  let x : Vec4 K := ⟨x_.x * ns.x + ns.y, x_.y * ns.x + ns.y, x_.z * ns.x + ns.y,
                     x_.w * ns.x + ns.y⟩
  let y : Vec4 K := ⟨y_.x * ns.x + ns.y, y_.y * ns.x + ns.y, y_.z * ns.x + ns.y,
                     y_.w * ns.x + ns.y⟩
  let h : Vec4 K := ⟨1 - |x.x| - |y.x|, 1 - |x.y| - |y.y|, 1 - |x.z| - |y.z|,
                     1 - |x.w| - |y.w|⟩
  let b0 : Vec4 K := ⟨x.x, x.y, y.x, y.y⟩
  let b1 : Vec4 K := ⟨x.z, x.w, y.z, y.w⟩
  let s0 : Vec4 K := ⟨glslFloor b0.x * 2 + 1, glslFloor b0.y * 2 + 1,
                      glslFloor b0.z * 2 + 1, glslFloor b0.w * 2 + 1⟩
  let s1 : Vec4 K := ⟨glslFloor b1.x * 2 + 1, glslFloor b1.y * 2 + 1,
                      glslFloor b1.z * 2 + 1, glslFloor b1.w * 2 + 1⟩
  let sh : Vec4 K := ⟨-glslStep h.x 0, -glslStep h.y 0, -glslStep h.z 0, -glslStep h.w 0⟩
  let a0 : Vec4 K := ⟨b0.x + s0.x * sh.x, b0.z + s0.z * sh.x,
                      b0.y + s0.y * sh.y, b0.w + s0.w * sh.y⟩
  let a1 : Vec4 K := ⟨b1.x + s1.x * sh.z, b1.z + s1.z * sh.z,
                      b1.y + s1.y * sh.w, b1.w + s1.w * sh.w⟩
  let p0 : Vec3 K := ⟨a0.x, a0.y, h.x⟩
  let p1 : Vec3 K := ⟨a0.z, a0.w, h.y⟩
  let p2 : Vec3 K := ⟨a1.x, a1.y, h.z⟩
  let p3 : Vec3 K := ⟨a1.z, a1.w, h.w⟩
  let norm : Vec4 K := taylorInvSqrtv4 ⟨dot3 p0 p0, dot3 p1 p1, dot3 p2 p2, dot3 p3 p3⟩
  let p0n := Vec3.scale norm.x p0
  let p1n := Vec3.scale norm.y p1
  let p2n := Vec3.scale norm.z p2
  let p3n := Vec3.scale norm.w p3
  let m : Vec4 K := ⟨max (0.6 - dot3 x0 x0) 0, max (0.6 - dot3 x1 x1) 0,
                     max (0.6 - dot3 x2 x2) 0, max (0.6 - dot3 x3 x3) 0⟩
  let m2 : Vec4 K := ⟨m.x * m.x, m.y * m.y, m.z * m.z, m.w * m.w⟩
  42 * (m2.x * m2.x * dot3 p0n x0 + m2.y * m2.y * dot3 p1n x1 +
        m2.z * m2.z * dot3 p2n x2 + m2.w * m2.w * dot3 p3n x3)

/-! ### 4D simplex noise (vertex shader of `src/shaders/fragment.glsl`, lines 186-284)

The GLSL file re-declares `mod289`, `permute` and `taylorInvSqrt` with the same
bodies as the `src/main.js` versions, both for `vec4` and for `float`; the
`vec4` versions coincide with `mod289v4`, `permutev4`, `taylorInvSqrtv4` above,
and the scalar versions are the definitions below. -/

/-- Scalar `mod289(float)` of `src/shaders/fragment.glsl`. -/
def mod289s (x : K) : K := x - glslFloor (x * (1 / 289)) * 289

/-- Scalar `permute(float)` of `src/shaders/fragment.glsl`. -/
def permuteS (x : K) : K := mod289s (((x * 34) + 10) * x)

/-- Scalar `taylorInvSqrt(float)` of `src/shaders/fragment.glsl`. -/
def taylorInvSqrtS (r : K) : K := 1.79284291400159 - 0.85373472095314 * r

/-- `grad4` of `src/shaders/fragment.glsl`. -/
def grad4 (j : K) (ip : Vec4 K) : Vec4 K :=
  let px := glslFloor (glslFract (j * ip.x) * 7) * ip.z - 1
  let py := glslFloor (glslFract (j * ip.y) * 7) * ip.z - 1
  let pz := glslFloor (glslFract (j * ip.z) * 7) * ip.z - 1
  let pw : K := 1.5 - (|px| * 1 + |py| * 1 + |pz| * 1)
  let sx : K := if px < 0 then 1 else 0
  let sy : K := if py < 0 then 1 else 0
  let sz : K := if pz < 0 then 1 else 0
  let sw : K := if pw < 0 then 1 else 0
  ⟨px + (sx * 2 - 1) * sw, py + (sy * 2 - 1) * sw, pz + (sz * 2 - 1) * sw, pw⟩

/-- The 4D simplex noise `snoise(vec4)` of `src/shaders/fragment.glsl`
(49-scaled variant), with `F4 = 0.309016994374947451` as in the source. -/
def snoise4 (v : Vec4 K) : K :=
  let C : Vec4 K := ⟨0.138196601125011, 0.276393202250021, 0.414589803375032,
                     -0.447213595499958⟩
  let F4 : K := 0.309016994374947451
  let s := (v.x + v.y + v.z + v.w) * F4
  let i : Vec4 K := ⟨glslFloor (v.x + s), glslFloor (v.y + s), glslFloor (v.z + s),
                     glslFloor (v.w + s)⟩
  let t := (i.x + i.y + i.z + i.w) * C.x
  let x0 : Vec4 K := ⟨v.x - i.x + t, v.y - i.y + t, v.z - i.z + t, v.w - i.w + t⟩
  let isX : Vec3 K := ⟨glslStep x0.y x0.x, glslStep x0.z x0.x, glslStep x0.w x0.x⟩
  let isYZ : Vec3 K := ⟨glslStep x0.z x0.y, glslStep x0.w x0.y, glslStep x0.w x0.z⟩
  let i0x := isX.x + isX.y + isX.z
  let i0y := (1 - isX.x) + isYZ.x + isYZ.y
  let i0z := (1 - isX.y) + (1 - isYZ.x) + isYZ.z
  let i0w := (1 - isX.z) + (1 - isYZ.y) + (1 - isYZ.z)
  let i0 : Vec4 K := ⟨i0x, i0y, i0z, i0w⟩
  let i3 : Vec4 K := ⟨glslClamp i0.x 0 1, glslClamp i0.y 0 1, glslClamp i0.z 0 1,
                      glslClamp i0.w 0 1⟩
  let i2 : Vec4 K := ⟨glslClamp (i0.x - 1) 0 1, glslClamp (i0.y - 1) 0 1,
                      glslClamp (i0.z - 1) 0 1, glslClamp (i0.w - 1) 0 1⟩
  let i1 : Vec4 K := ⟨glslClamp (i0.x - 2) 0 1, glslClamp (i0.y - 2) 0 1,
                      glslClamp (i0.z - 2) 0 1, glslClamp (i0.w - 2) 0 1⟩
  let x1 : Vec4 K := ⟨x0.x - i1.x + C.x, x0.y - i1.y + C.x, x0.z - i1.z + C.x,
                      x0.w - i1.w + C.x⟩
  let x2 : Vec4 K := ⟨x0.x - i2.x + C.y, x0.y - i2.y + C.y, x0.z - i2.z + C.y,
                      x0.w - i2.w + C.y⟩
  let x3 : Vec4 K := ⟨x0.x - i3.x + C.z, x0.y - i3.y + C.z, x0.z - i3.z + C.z,
                      x0.w - i3.w + C.z⟩
  let x4 : Vec4 K := ⟨x0.x + C.w, x0.y + C.w, x0.z + C.w, x0.w + C.w⟩
  let im : Vec4 K := mod289v4 i
  let j0 : K := permuteS (permuteS (permuteS (permuteS im.w + im.z) + im.y) + im.x)
  let j1 : Vec4 K :=
    ⟨permuteS (permuteS (permuteS (permuteS (im.w + i1.w) + im.z + i1.z) + im.y + i1.y)
        + im.x + i1.x),
     permuteS (permuteS (permuteS (permuteS (im.w + i2.w) + im.z + i2.z) + im.y + i2.y)
        + im.x + i2.x),
     permuteS (permuteS (permuteS (permuteS (im.w + i3.w) + im.z + i3.z) + im.y + i3.y)
        + im.x + i3.x),
     permuteS (permuteS (permuteS (permuteS (im.w + 1) + im.z + 1) + im.y + 1)
        + im.x + 1)⟩
  let ip : Vec4 K := ⟨1 / 294, 1 / 49, 1 / 7, 0⟩
  let p0 := grad4 j0 ip
  let p1 := grad4 j1.x ip
  let p2 := grad4 j1.y ip
  let p3 := grad4 j1.z ip
  let p4 := grad4 j1.w ip
  let norm : Vec4 K := taylorInvSqrtv4 ⟨dot4 p0 p0, dot4 p1 p1, dot4 p2 p2, dot4 p3 p3⟩
  let p0n := Vec4.scale norm.x p0
  let p1n := Vec4.scale norm.y p1
  let p2n := Vec4.scale norm.z p2
  let p3n := Vec4.scale norm.w p3
  let p4n := Vec4.scale (taylorInvSqrtS (dot4 p4 p4)) p4
  let m0 : Vec3 K := ⟨max (0.6 - dot4 x0 x0) 0, max (0.6 - dot4 x1 x1) 0,
                      max (0.6 - dot4 x2 x2) 0⟩
  let m1 : Vec2 K := ⟨max (0.6 - dot4 x3 x3) 0, max (0.6 - dot4 x4 x4) 0⟩
  let m0sq : Vec3 K := ⟨m0.x * m0.x, m0.y * m0.y, m0.z * m0.z⟩
  let m1sq : Vec2 K := ⟨m1.x * m1.x, m1.y * m1.y⟩
  49 * ((m0sq.x * m0sq.x * dot4 p0n x0 + m0sq.y * m0sq.y * dot4 p1n x1 +
         m0sq.z * m0sq.z * dot4 p2n x2) +
        (m1sq.x * m1sq.x * dot4 p3n x3 + m1sq.y * m1sq.y * dot4 p4n x4))

/-! ### Fractal Brownian motion (`fbm`, `src/shaders/fragment.glsl` lines 291-306) -/

/-- One pass of the `fbm` loop body.  The recursion carries the loop counter
`i`, the running `value`, the current `amplitude` and `frequency`, and the
accumulated `maxValue`; the first argument is structural fuel for the four
loop iterations, and the loop exits early when `i >= octaves` as in the
source (`if (i >= octaves) break;`). -/
def fbmAux (octaves : ℤ) (p : Vec4 K) : ℕ → ℤ → K → K → K → K → K × K
  | 0, _, value, _, _, maxValue => (value, maxValue)
  | n + 1, i, value, amplitude, frequency, maxValue =>
    if octaves ≤ i then (value, maxValue)
    else fbmAux octaves p n (i + 1) (value + amplitude * snoise4 (Vec4.scale frequency p))
      (amplitude * 0.5) (frequency * 2) (maxValue + amplitude)

/-- `fbm` of `src/shaders/fragment.glsl`: multi-octave noise, amplitude
halving and frequency doubling per octave, normalized by the accumulated
amplitude. -/
def fbm (p : Vec4 K) (octaves : ℤ) : K :=
  let r := fbmAux octaves p 4 0 0 0.5 1 0
  r.1 / r.2

/-! ### The 4D vertex deformer (`src/shaders/fragment.glsl` lines 312-368) -/

/-- `verticalBias` of the GLSL vertex `main`:
`1.0 - (pos.y * 0.3 + 0.5)` clamped to `[0.6, 1.2]`. -/
def verticalBias (pos : Vec3 K) : K :=
  glslClamp (1 - (pos.y * 0.3 + 0.5)) 0.6 1.2

/-- `horizontalScale` of the GLSL vertex `main`: `1.0 + (1.0 - abs(pos.y)) * 0.15`. -/
def horizontalScale (pos : Vec3 K) : K := 1 + (1 - |pos.y|) * 0.15

/-- `noiseInput` of the GLSL vertex `main` (primary, low-frequency pass). -/
def glslNoiseInput (noiseScale : K) (pos : Vec3 K) (slowTime : K) : Vec4 K :=
  ⟨pos.x * noiseScale * horizontalScale pos, pos.y * noiseScale * 0.7,
   pos.z * noiseScale * horizontalScale pos, slowTime⟩

/-- `detailInput` of the GLSL vertex `main` (secondary, higher-frequency pass). -/
def glslDetailInput (noiseScale : K) (pos : Vec3 K) (slowTime : K) : Vec4 K :=
  ⟨pos.x * noiseScale * 2.5, pos.y * noiseScale * 2.5, pos.z * noiseScale * 2.5,
   slowTime * 1.3⟩

/-- The scalar displacement computed by the GLSL vertex `main`:
`(fbm(noiseInput, 3) + snoise(detailInput) * 0.15) * u_amplitude * verticalBias`,
with `slowTime = u_time * u_viscosity`. -/
def glslDisplacement (noiseScale viscosity amplitude : K) (pos : Vec3 K) (time : K) : K :=
  let slowTime := time * viscosity
  let primaryNoise := fbm (glslNoiseInput noiseScale pos slowTime) 3
  let detailNoise := snoise4 (glslDetailInput noiseScale pos slowTime) * 0.15
  (primaryNoise + detailNoise) * amplitude * verticalBias pos

/-- Componentwise GLSL `mix` on `vec3` with scalar interpolant. -/
def mixV (a b : Vec3 K) (t : K) : Vec3 K :=
  ⟨glslMix a.x b.x t, glslMix a.y b.y t, glslMix a.z b.z t⟩

/-- A 3×3 matrix given by rows (the GLSL `normalMatrix`). -/
structure Mat3 (K : Type) where
  r0 : Vec3 K
  r1 : Vec3 K
  r2 : Vec3 K

/-- Matrix-vector product `m * v` for a `mat3`. -/
def Mat3.mulVec (m : Mat3 K) (v : Vec3 K) : Vec3 K :=
  ⟨dot3 m.r0 v, dot3 m.r1 v, dot3 m.r2 v⟩

/-- A 4×4 matrix given by rows (the GLSL `modelMatrix`). -/
structure Mat4 (K : Type) where
  r0 : Vec4 K
  r1 : Vec4 K
  r2 : Vec4 K
  r3 : Vec4 K

/-- `(m * vec4(v, 1.0)).xyz`, the application of a `mat4` to a point. -/
def Mat4.applyPoint (m : Mat4 K) (v : Vec3 K) : Vec3 K :=
  ⟨dot4 m.r0 ⟨v.x, v.y, v.z, 1⟩, dot4 m.r1 ⟨v.x, v.y, v.z, 1⟩,
   dot4 m.r2 ⟨v.x, v.y, v.z, 1⟩⟩

/-! ### Real-valued GLSL built-ins (`normalize`, `reflect`) -/

/-- GLSL `length` of a `vec3`. -/
noncomputable def length3 (v : Vec3 ℝ) : ℝ := Real.sqrt (dot3 v v)

/-- GLSL `normalize v = v / length v` modelled totally over `ℝ` (division by
zero gives the Lean junk value `0`; `glslNormalizeOpt` below records that this
case is actually undefined in GLSL). -/
noncomputable def normalize3 (v : Vec3 ℝ) : Vec3 ℝ :=
  ⟨v.x / length3 v, v.y / length3 v, v.z / length3 v⟩

/-- GLSL `normalize` with its partiality made explicit: normalizing the zero
vector is undefined in GLSL (it divides by `length(v) = 0`, yielding NaN on
the GPU), so the result is `none` there; the source shaders call `normalize`
without any zero-length guard. -/
noncomputable def glslNormalizeOpt (v : Vec3 ℝ) : Option (Vec3 ℝ) :=
  if dot3 v v = 0 then none else some (normalize3 v)

/-- The view direction of `src/shaders/fragment.glsl` line 72,
`normalize(u_cameraPosition - v_worldPosition)`, with GLSL's undefinedness on
the zero vector made explicit. -/
noncomputable def glslViewDirOpt (cameraPosition worldPosition : Vec3 ℝ) :
    Option (Vec3 ℝ) :=
  glslNormalizeOpt (cameraPosition - worldPosition)

/-- GLSL `reflect I N = I - 2 * dot(N, I) * N`. -/
noncomputable def reflect3 (I N : Vec3 ℝ) : Vec3 ℝ :=
  I - Vec3.scale (2 * dot3 N I) N

/-! ### The GLSL vertex deformer output (`src/shaders/fragment.glsl` lines 312-368) -/

/-- The varyings produced by the vertex `main` of `src/shaders/fragment.glsl`. -/
structure GlslVertexOut where
  v_displacement : ℝ
  v_normal : Vec3 ℝ
  v_position : Vec3 ℝ
  v_worldPosition : Vec3 ℝ

/-- The vertex `main` of `src/shaders/fragment.glsl`:
`pos = position`, `norm = normalize(normal)`,
`displacement = (primaryNoise + detailNoise) * u_amplitude * verticalBias`,
`newPosition = pos + norm * displacement`, and the varyings as in lines 362-365. -/
noncomputable def glslVertexMain (normalMatrix : Mat3 ℝ) (modelMatrix : Mat4 ℝ)
    (noiseScale viscosity amplitude : ℝ) (position normal : Vec3 ℝ) (time : ℝ) :
    GlslVertexOut :=
  let pos := position
  let norm := normalize3 normal
  let displacement := glslDisplacement noiseScale viscosity amplitude pos time
  let newPosition := pos + Vec3.scale displacement norm
  { v_displacement := displacement
    v_normal := normalize3 (Mat3.mulVec normalMatrix norm)
    v_position := newPosition
    v_worldPosition := Mat4.applyPoint modelMatrix newPosition }

/-! ### The breathing deformer of `src/main.js` (vertex shader, lines 231-257) -/

/-- The scalar displacement of the `src/main.js` vertex shader:
`(breathe + pulse + sway + noise1 + noise2) * u_amplitude * vertBias`
with `slowTime = u_time * 0.08`. -/
noncomputable def jsDisplacement (amplitude : ℝ) (pos : Vec3 ℝ) (time : ℝ) : ℝ :=
  let slowTime := time * 0.08
  let breathe := Real.sin (slowTime * 12) * 0.08
  let pulse := Real.sin (slowTime * 10 + pos.y * 2.5) * 0.05
  let sway := Real.sin (slowTime * 7 + pos.x * 2) * 0.035
  let noise1 := snoise3 (Vec3.addK (Vec3.scale 0.8 pos) (slowTime * 0.7)) * 0.12
  let noise2 := snoise3 (Vec3.addK (Vec3.scale 1.5 pos) (slowTime * 0.5)) * 0.06
  let vertBias := (pos.y + 1) * 0.4 + 0.5
  (breathe + pulse + sway + noise1 + noise2) * amplitude * vertBias

/-- The varyings (and displaced position) produced by the `src/main.js`
vertex shader. -/
structure JsVertexOut where
  newPosition : Vec3 ℝ
  v_normal : Vec3 ℝ
  v_smoothNormal : Vec3 ℝ
  v_localPosition : Vec3 ℝ
  v_worldPosition : Vec3 ℝ

/-- The vertex `main` of the shader embedded in `src/main.js` (identical to
the copy in `src/unnamed/part_000`). -/
noncomputable def jsVertexMain (normalMatrix : Mat3 ℝ) (modelMatrix : Mat4 ℝ)
    (amplitude : ℝ) (position normal : Vec3 ℝ) (time : ℝ) : JsVertexOut :=
  let pos := position
  let norm := normalize3 normal
  let displacement := jsDisplacement amplitude pos time
  let newPosition := pos + Vec3.scale displacement norm
  let vn := normalize3 (Mat3.mulVec normalMatrix norm)
  { newPosition := newPosition
    v_normal := vn
    v_smoothNormal := vn
    v_localPosition := pos
    v_worldPosition := Mat4.applyPoint modelMatrix newPosition }

/-! ### The fragment shading pipeline of `src/shaders/fragment.glsl` (lines 7-163) -/

/-- The uniforms of `src/shaders/fragment.glsl`. -/
structure FragUniforms where
  cameraPosition : Vec3 ℝ
  keyLightPos : Vec3 ℝ
  rimLightPos : Vec3 ℝ
  keyLightColor : Vec3 ℝ
  rimLightColor : Vec3 ℝ
  keyLightIntensity : ℝ
  rimLightIntensity : ℝ
  fresnelPower : ℝ
  fresnelBias : ℝ
  absorption : ℝ

/-- The interpolated varyings consumed by the fragment `main` (`v_position`
is declared but unused by the fragment shader). -/
structure FragVarying where
  v_normal : Vec3 ℝ
  v_worldPosition : Vec3 ℝ
  v_displacement : ℝ

/-- `fresnel` of `src/shaders/fragment.glsl` (lines 29-33): Schlick
approximation `bias + (1-bias)*pow(1 - max(dot(normal, viewDir), 0), power)`,
clamped to `[0, 1]`. -/
noncomputable def fresnel (viewDir normal : Vec3 ℝ) (power bias : ℝ) : ℝ :=
  let NdotV := max (dot3 normal viewDir) 0
  glslClamp (bias + (1 - bias) * (1 - NdotV) ^ power) 0 1

/-- `specular` of `src/shaders/fragment.glsl` (lines 36-41). -/
noncomputable def specular (lightDir viewDir normal : Vec3 ℝ) (roughness : ℝ) : ℝ :=
  let halfDir := normalize3 (lightDir + viewDir)
  let NdotH := max (dot3 normal halfDir) 0
  NdotH ^ (1 / (roughness * roughness + 0.001))

/-- `environmentGradient` of `src/shaders/fragment.glsl` (lines 44-61). -/
def environmentGradient (reflectDir : Vec3 K) : Vec3 K :=
  let y := reflectDir.y * 0.5 + 0.5
  let bottomColor : Vec3 K := ⟨0.02, 0.02, 0.03⟩
  let midColor : Vec3 K := ⟨0.04, 0.045, 0.06⟩
  let topColor : Vec3 K := ⟨0.06, 0.065, 0.09⟩
  let env := mixV bottomColor midColor (smoothstep 0 0.5 y)
  let env2 := mixV env topColor (smoothstep 0.5 1 y)
  let highlightZone := smoothstep 0.6 0.9 y * smoothstep 0.3 0 |reflectDir.x - 0.3|
  env2 + Vec3.scale (highlightZone * 0.5) ⟨0.08, 0.07, 0.05⟩

/-- `normal = normalize(v_normal)` of the fragment `main` (line 69). -/
noncomputable def fragNormal (fv : FragVarying) : Vec3 ℝ := normalize3 fv.v_normal

/-- `viewDir = normalize(u_cameraPosition - v_worldPosition)` (line 72). -/
noncomputable def fragViewDir (u : FragUniforms) (fv : FragVarying) : Vec3 ℝ :=
  normalize3 (u.cameraPosition - fv.v_worldPosition)

/-- `reflectDir = reflect(-viewDir, normal)` (line 75). -/
noncomputable def fragReflectDir (u : FragUniforms) (fv : FragVarying) : Vec3 ℝ :=
  reflect3 (-(fragViewDir u fv)) (fragNormal fv)

/-- The absorbed base color of the fragment `main` (lines 81-86):
`coreColor * (1 - depth * u_absorption * 0.5)` with
`depth = clamp(1 - abs(v_displacement) * 2, 0, 1)`. -/
noncomputable def absorbedColor (u : FragUniforms) (fv : FragVarying) : Vec3 ℝ :=
  let coreColor : Vec3 ℝ := ⟨0.015, 0.018, 0.025⟩
  let depth := glslClamp (1 - |fv.v_displacement| * 2) 0 1
  Vec3.scale (1 - depth * u.absorption * 0.5) coreColor

/-- The view-angle-mixed edge color of the fragment `main` (lines 94-100). -/
noncomputable def edgeColorMixed (normal : Vec3 ℝ) : Vec3 ℝ :=
  let edgeColor : Vec3 ℝ := ⟨0.12, 0.13, 0.16⟩
  let goldTint := Vec3.scale 0.3 ⟨0.15, 0.12, 0.08⟩
  let blueTint := Vec3.scale 0.2 ⟨0.08, 0.10, 0.14⟩
  let angleMix := dot3 normal ⟨0, 1, 0⟩ * 0.5 + 0.5
  mixV (edgeColor + blueTint) (edgeColor + goldTint) angleMix

/-- The key-light contribution of the fragment `main` (lines 110-117):
`u_keyLightColor * u_keyLightIntensity * (keyDiffuse * 0.15 + keySpec)`. -/
noncomputable def keyContribution (u : FragUniforms) (fv : FragVarying) : Vec3 ℝ :=
  let normal := fragNormal fv
  let viewDir := fragViewDir u fv
  let keyLightDir := normalize3 (u.keyLightPos - fv.v_worldPosition)
  let keyDiffuse := max (dot3 normal keyLightDir) 0 ^ (1.5 : ℝ)
  let keySpec := specular keyLightDir viewDir normal 0.15 ^ (2 : ℝ) * 0.8
  Vec3.scale (u.keyLightIntensity * (keyDiffuse * 0.15 + keySpec)) u.keyLightColor

/-- The rim-light contribution of the fragment `main` (lines 122-129):
`u_rimLightColor * u_rimLightIntensity * rimDiffuse * rimMask * 0.4` with
`rimMask = pow(1 - max(dot(viewDir, normal), 0), 3)`. -/
noncomputable def rimContribution (u : FragUniforms) (fv : FragVarying) : Vec3 ℝ :=
  let normal := fragNormal fv
  let viewDir := fragViewDir u fv
  let rimLightDir := normalize3 (u.rimLightPos - fv.v_worldPosition)
  let rimDiffuse := max (dot3 normal rimLightDir) 0
  let rimMask := (1 - max (dot3 viewDir normal) 0) ^ (3 : ℝ)
  Vec3.scale (u.rimLightIntensity * rimDiffuse * rimMask * 0.4) u.rimLightColor

/-- The accumulated color reaching the tone-mapping step (lines 132-152):
the composite of the absorbed core, the Fresnel-weighted environment
reflection and edge glow, and the two light contributions, multiplied by the
displacement-based surface-variation factor. -/
noncomputable def fragPreTone (u : FragUniforms) (fv : FragVarying) : Vec3 ℝ :=
  let normal := fragNormal fv
  let fresnelTerm := fresnel (fragViewDir u fv) normal u.fresnelPower u.fresnelBias
  let envColor := environmentGradient (fragReflectDir u fv)
  let finalColor := absorbedColor u fv + Vec3.scale (fresnelTerm * 0.6) envColor
    + Vec3.scale (fresnelTerm * fresnelTerm * 0.4) (edgeColorMixed normal)
    + keyContribution u fv + rimContribution u fv
  let surfaceVar := fv.v_displacement * 0.5 + 0.5
  Vec3.scale (0.95 + surfaceVar * 0.1) finalColor

/-- The tone-mapping tail of the fragment `main` (lines 158-161): Reinhard
`c / (c + 1)` per channel, then the contrast boost `pow(c, 1.05)`. -/
noncomputable def toneMap (c : Vec3 ℝ) : Vec3 ℝ :=
  let r : Vec3 ℝ := ⟨c.x / (c.x + 1), c.y / (c.y + 1), c.z / (c.z + 1)⟩
  ⟨r.x ^ (1.05 : ℝ), r.y ^ (1.05 : ℝ), r.z ^ (1.05 : ℝ)⟩

/-- The full fragment `main` of `src/shaders/fragment.glsl`. -/
noncomputable def fragMain (u : FragUniforms) (fv : FragVarying) : Vec3 ℝ :=
  toneMap (fragPreTone u fv)

/-- The tone-mapping tail of the fragment shader embedded in `src/main.js`
(lines 407-411): the filmic curve
`(c*(a*c + b)) / (c*(c*c + d) + e)` with `a = 2.4, b = 0.025, c = 2.2,
d = 0.58, e = 0.13`, clamped to `[0, 1]` per channel, followed by the
per-channel warmth exponent `pow(c, vec3(0.9, 0.95, 1.0))`. -/
noncomputable def jsToneMap (finalColor : Vec3 ℝ) : Vec3 ℝ :=
  let a : ℝ := 2.4
  let b : ℝ := 0.025
  let c : ℝ := 2.2
  let d : ℝ := 0.58
  let e : ℝ := 0.13
  let t : Vec3 ℝ :=
    ⟨glslClamp ((finalColor.x * (a * finalColor.x + b))
        / (finalColor.x * (c * finalColor.x + d) + e)) 0 1,
     glslClamp ((finalColor.y * (a * finalColor.y + b))
        / (finalColor.y * (c * finalColor.y + d) + e)) 0 1,
     glslClamp ((finalColor.z * (a * finalColor.z + b))
        / (finalColor.z * (c * finalColor.z + d) + e)) 0 1⟩
  ⟨t.x ^ (0.9 : ℝ), t.y ^ (0.95 : ℝ), t.z ^ (1.0 : ℝ)⟩

/-- The tone-mapping tail of the fragment shader embedded in
`src/unnamed/part_000` (lines 381-382): the filmic quotient
`color / (color + 0.5)` per channel, followed by the per-channel gamma
exponent `pow(color, vec3(0.92, 0.95, 1.0))`. -/
noncomputable def part000ToneMap (color : Vec3 ℝ) : Vec3 ℝ :=
  let t : Vec3 ℝ := ⟨color.x / (color.x + 0.5), color.y / (color.y + 0.5),
    color.z / (color.z + 0.5)⟩
  ⟨t.x ^ (0.92 : ℝ), t.y ^ (0.95 : ℝ), t.z ^ (1.0 : ℝ)⟩

/-- A concrete configuration: head-on geometry with a negative key-light
intensity (the uniforms are externally supplied and unconstrained in the
shader). -/
noncomputable def cexUniforms : FragUniforms :=
  { cameraPosition := ⟨0, 0, 2⟩
    keyLightPos := ⟨0, 0, 1⟩
    rimLightPos := ⟨0, 0, 1⟩
    keyLightColor := ⟨1, 1, 1⟩
    rimLightColor := ⟨0, 0, 0⟩
    keyLightIntensity := -100
    rimLightIntensity := 0
    fresnelPower := 1
    fresnelBias := 0
    absorption := 0 }

/-- A concrete fragment: unit normal `(0,0,1)` at the world origin with zero
displacement. -/
noncomputable def cexVarying : FragVarying :=
  { v_normal := ⟨0, 0, 1⟩
    v_worldPosition := ⟨0, 0, 0⟩
    v_displacement := 0 }

/-! ## Basic lemmas about the embedded GLSL operations -/

@[simp]
lemma Vec3.add_x (a b : Vec3 K) : (a + b).x = a.x + b.x := rfl

@[simp]
lemma Vec3.add_y (a b : Vec3 K) : (a + b).y = a.y + b.y := rfl

@[simp]
lemma Vec3.add_z (a b : Vec3 K) : (a + b).z = a.z + b.z := rfl

@[simp]
lemma Vec3.sub_x (a b : Vec3 K) : (a - b).x = a.x - b.x := rfl

@[simp]
lemma Vec3.sub_y (a b : Vec3 K) : (a - b).y = a.y - b.y := rfl

@[simp]
lemma Vec3.sub_z (a b : Vec3 K) : (a - b).z = a.z - b.z := rfl

@[simp]
lemma Vec3.neg_x (a : Vec3 K) : (-a).x = -a.x := rfl

@[simp]
lemma Vec3.neg_y (a : Vec3 K) : (-a).y = -a.y := rfl

@[simp]
lemma Vec3.neg_z (a : Vec3 K) : (-a).z = -a.z := rfl

@[simp]
lemma Vec3.scale_x (s : K) (v : Vec3 K) : (Vec3.scale s v).x = v.x * s := rfl

@[simp]
lemma Vec3.scale_y (s : K) (v : Vec3 K) : (Vec3.scale s v).y = v.y * s := rfl

@[simp]
lemma Vec3.scale_z (s : K) (v : Vec3 K) : (Vec3.scale s v).z = v.z * s := rfl

@[simp]
lemma Vec4.scale_one (p : Vec4 K) : Vec4.scale 1 p = p := by
  ext <;> simp [Vec4.scale]

lemma glslClamp_le_right (x lo hi : K) : glslClamp x lo hi ≤ hi := min_le_right _ _

lemma left_le_glslClamp (x : K) {lo hi : K} (h : lo ≤ hi) : lo ≤ glslClamp x lo hi :=
  le_min (le_max_right _ _) h

lemma glslClamp_nonneg (x hi : K) (h : 0 ≤ hi) : 0 ≤ glslClamp x 0 hi :=
  left_le_glslClamp x h

lemma smoothstep_nonneg (e0 e1 x : K) : 0 ≤ smoothstep e0 e1 x := by
  have h0 : 0 ≤ glslClamp ((x - e0) / (e1 - e0)) 0 1 := glslClamp_nonneg _ _ zero_le_one
  have h1 : glslClamp ((x - e0) / (e1 - e0)) 0 1 ≤ 1 := glslClamp_le_right _ _ _
  simp only [smoothstep]
  nlinarith

lemma smoothstep_le_one (e0 e1 x : K) : smoothstep e0 e1 x ≤ 1 := by
  have h0 : 0 ≤ glslClamp ((x - e0) / (e1 - e0)) 0 1 := glslClamp_nonneg _ _ zero_le_one
  have h1 : glslClamp ((x - e0) / (e1 - e0)) 0 1 ≤ 1 := glslClamp_le_right _ _ _
  simp only [smoothstep]
  nlinarith [sq_nonneg (1 - glslClamp ((x - e0) / (e1 - e0)) 0 1)]

lemma glslMix_nonneg {a b t : K} (ha : 0 ≤ a) (hb : 0 ≤ b) (ht0 : 0 ≤ t)
    (ht1 : t ≤ 1) : 0 ≤ glslMix a b t := by
  simp only [glslMix]
  nlinarith

lemma dot3_self_nonneg (a : Vec3 K) : 0 ≤ dot3 a a := by
  simp only [dot3]
  nlinarith [mul_self_nonneg a.x, mul_self_nonneg a.y, mul_self_nonneg a.z]

/-- Cauchy–Schwarz for the embedded `dot` (Lagrange identity). -/
lemma dot3_sq_le (a b : Vec3 K) : dot3 a b ^ 2 ≤ dot3 a a * dot3 b b := by
  simp only [dot3]
  nlinarith [sq_nonneg (a.x * b.y - a.y * b.x), sq_nonneg (a.x * b.z - a.z * b.x),
    sq_nonneg (a.y * b.z - a.z * b.y)]

lemma length3_nonneg (v : Vec3 ℝ) : 0 ≤ length3 v := Real.sqrt_nonneg _

lemma length3_mul_self (v : Vec3 ℝ) : length3 v * length3 v = dot3 v v :=
  Real.mul_self_sqrt (dot3_self_nonneg v)

lemma normalize3_of_length_zero {v : Vec3 ℝ} (h : length3 v = 0) :
    normalize3 v = ⟨0, 0, 0⟩ := by
  simp [normalize3, h]

lemma dot3_normalize3 (a b : Vec3 ℝ) :
    dot3 (normalize3 a) (normalize3 b) = dot3 a b / (length3 a * length3 b) := by
  simp only [normalize3, dot3]
  ring

/-- The dot product of two GLSL-normalized vectors lies in `[-1, 1]` (also in
the degenerate junk case where one of them is the zero vector). -/
lemma abs_dot3_normalize_le_one (a b : Vec3 ℝ) :
    |dot3 (normalize3 a) (normalize3 b)| ≤ 1 := by
  rcases eq_or_lt_of_le (length3_nonneg a) with ha | ha
  · simp [dot3_normalize3, ← ha]
  rcases eq_or_lt_of_le (length3_nonneg b) with hb | hb
  · simp [dot3_normalize3, ← hb]
  rw [dot3_normalize3, abs_div, abs_of_pos (by positivity : (0:ℝ) < length3 a * length3 b),
    div_le_one (by positivity)]
  have hcs := dot3_sq_le a b
  rw [← length3_mul_self a, ← length3_mul_self b] at hcs
  rw [abs_le]
  constructor <;> nlinarith [mul_pos ha hb, sq_nonneg (dot3 a b - length3 a * length3 b),
    sq_nonneg (dot3 a b + length3 a * length3 b)]

lemma dot3_normalize3_le_one (a b : Vec3 ℝ) : dot3 (normalize3 a) (normalize3 b) ≤ 1 :=
  le_trans (le_abs_self _) (abs_dot3_normalize_le_one a b)

/-- The `y` component of a GLSL-normalized vector lies in `[-1, 1]`. -/
lemma abs_normalize3_y_le_one (a : Vec3 ℝ) : |(normalize3 a).y| ≤ 1 := by
  rcases eq_or_lt_of_le (length3_nonneg a) with ha | ha
  · simp [normalize3, ← ha]
  have hy : a.y ^ 2 ≤ length3 a * length3 a := by
    rw [length3_mul_self]
    simp only [dot3]
    nlinarith [mul_self_nonneg a.x, mul_self_nonneg a.z]
  have hcomp : (normalize3 a).y = a.y / length3 a := rfl
  rw [hcomp, abs_div, abs_of_pos ha, div_le_one ha, abs_le]
  constructor <;> nlinarith [sq_nonneg (a.y - length3 a), sq_nonneg (a.y + length3 a)]

/-! ### Lemmas about the fragment shading pipeline -/

lemma normalize3_zc {c : ℝ} (hc : 0 < c) : normalize3 ⟨0, 0, c⟩ = ⟨0, 0, 1⟩ := by
  have hl : length3 (⟨0, 0, c⟩ : Vec3 ℝ) = c := by
    simp only [length3, dot3]
    rw [show (0:ℝ) * 0 + 0 * 0 + c * c = c * c by ring, Real.sqrt_mul_self hc.le]
  ext <;> simp [normalize3, hl, hc.ne']

lemma fresnel_nonneg (v n : Vec3 ℝ) (p b : ℝ) : 0 ≤ fresnel v n p b := by
  simp only [fresnel]
  exact glslClamp_nonneg _ _ zero_le_one

lemma environmentGradient_comp_nonneg (r : Vec3 K) :
    0 ≤ (environmentGradient r).x ∧ 0 ≤ (environmentGradient r).y ∧
    0 ≤ (environmentGradient r).z := by
  simp only [environmentGradient, mixV, Vec3.add_x, Vec3.add_y, Vec3.add_z,
    Vec3.scale_x, Vec3.scale_y, Vec3.scale_z]
  refine ⟨?_, ?_, ?_⟩ <;>
    exact add_nonneg
      (glslMix_nonneg
        (glslMix_nonneg (by norm_num) (by norm_num) (smoothstep_nonneg _ _ _)
          (smoothstep_le_one _ _ _))
        (by norm_num) (smoothstep_nonneg _ _ _) (smoothstep_le_one _ _ _))
      (mul_nonneg (by norm_num)
        (mul_nonneg (mul_nonneg (smoothstep_nonneg _ _ _) (smoothstep_nonneg _ _ _))
          (by norm_num)))

lemma edgeColorMixed_comp_nonneg (n : Vec3 ℝ) (hy : |n.y| ≤ 1) :
    0 ≤ (edgeColorMixed n).x ∧ 0 ≤ (edgeColorMixed n).y ∧ 0 ≤ (edgeColorMixed n).z := by
  obtain ⟨h1, h2⟩ := abs_le.mp hy
  have hd : dot3 n ⟨0, 1, 0⟩ = n.y := by simp [dot3]
  have ht0 : 0 ≤ dot3 n ⟨0, 1, 0⟩ * 0.5 + 0.5 := by rw [hd]; linarith
  have ht1 : dot3 n ⟨0, 1, 0⟩ * 0.5 + 0.5 ≤ 1 := by rw [hd]; linarith
  simp only [edgeColorMixed, mixV, Vec3.add_x, Vec3.add_y, Vec3.add_z,
    Vec3.scale_x, Vec3.scale_y, Vec3.scale_z]
  exact ⟨glslMix_nonneg (by norm_num) (by norm_num) ht0 ht1,
    glslMix_nonneg (by norm_num) (by norm_num) ht0 ht1,
    glslMix_nonneg (by norm_num) (by norm_num) ht0 ht1⟩

lemma keyContribution_comp_nonneg (u : FragUniforms) (fv : FragVarying)
    (hki : 0 ≤ u.keyLightIntensity) (hc1 : 0 ≤ u.keyLightColor.x)
    (hc2 : 0 ≤ u.keyLightColor.y) (hc3 : 0 ≤ u.keyLightColor.z) :
    0 ≤ (keyContribution u fv).x ∧ 0 ≤ (keyContribution u fv).y ∧
    0 ≤ (keyContribution u fv).z := by
  have hkd : (0:ℝ) ≤ max (dot3 (fragNormal fv)
      (normalize3 (u.keyLightPos - fv.v_worldPosition))) 0 ^ (1.5 : ℝ) :=
    Real.rpow_nonneg (le_max_right _ _) _
  have hsp : (0:ℝ) ≤ specular (normalize3 (u.keyLightPos - fv.v_worldPosition))
      (fragViewDir u fv) (fragNormal fv) 0.15 := by
    simp only [specular]
    exact Real.rpow_nonneg (le_max_right _ _) _
  have hks : (0:ℝ) ≤ specular (normalize3 (u.keyLightPos - fv.v_worldPosition))
      (fragViewDir u fv) (fragNormal fv) 0.15 ^ (2 : ℝ) * 0.8 :=
    mul_nonneg (Real.rpow_nonneg hsp _) (by norm_num)
  have hs : (0:ℝ) ≤ u.keyLightIntensity * (max (dot3 (fragNormal fv)
      (normalize3 (u.keyLightPos - fv.v_worldPosition))) 0 ^ (1.5 : ℝ) * 0.15
      + specular (normalize3 (u.keyLightPos - fv.v_worldPosition)) (fragViewDir u fv)
        (fragNormal fv) 0.15 ^ (2 : ℝ) * 0.8) :=
    mul_nonneg hki (add_nonneg (mul_nonneg hkd (by norm_num)) hks)
  simp only [keyContribution, Vec3.scale_x, Vec3.scale_y, Vec3.scale_z]
  exact ⟨mul_nonneg hc1 hs, mul_nonneg hc2 hs, mul_nonneg hc3 hs⟩

lemma rimContribution_comp_nonneg (u : FragUniforms) (fv : FragVarying)
    (hri : 0 ≤ u.rimLightIntensity) (hc1 : 0 ≤ u.rimLightColor.x)
    (hc2 : 0 ≤ u.rimLightColor.y) (hc3 : 0 ≤ u.rimLightColor.z) :
    0 ≤ (rimContribution u fv).x ∧ 0 ≤ (rimContribution u fv).y ∧
    0 ≤ (rimContribution u fv).z := by
  have hdot : dot3 (fragViewDir u fv) (fragNormal fv) ≤ 1 := by
    simp only [fragViewDir, fragNormal]
    exact dot3_normalize3_le_one _ _
  have hbase : (0:ℝ) ≤ 1 - max (dot3 (fragViewDir u fv) (fragNormal fv)) 0 :=
    sub_nonneg.mpr (max_le hdot zero_le_one)
  have hmask : (0:ℝ) ≤ (1 - max (dot3 (fragViewDir u fv) (fragNormal fv)) 0) ^ (3 : ℝ) :=
    Real.rpow_nonneg hbase _
  have hs : (0:ℝ) ≤ u.rimLightIntensity
      * max (dot3 (fragNormal fv) (normalize3 (u.rimLightPos - fv.v_worldPosition))) 0
      * (1 - max (dot3 (fragViewDir u fv) (fragNormal fv)) 0) ^ (3 : ℝ) * 0.4 :=
    mul_nonneg (mul_nonneg (mul_nonneg hri (le_max_right _ _)) hmask) (by norm_num)
  simp only [rimContribution, Vec3.scale_x, Vec3.scale_y, Vec3.scale_z]
  exact ⟨mul_nonneg hc1 hs, mul_nonneg hc2 hs, mul_nonneg hc3 hs⟩

lemma absorbedColor_comp_nonneg (u : FragUniforms) (fv : FragVarying)
    (habs : u.absorption ≤ 2) :
    0 ≤ (absorbedColor u fv).x ∧ 0 ≤ (absorbedColor u fv).y ∧
    0 ≤ (absorbedColor u fv).z := by
  have hd0 : (0:ℝ) ≤ glslClamp (1 - |fv.v_displacement| * 2) 0 1 :=
    glslClamp_nonneg _ _ zero_le_one
  have hd1 : glslClamp (1 - |fv.v_displacement| * 2) 0 1 ≤ 1 := glslClamp_le_right _ _ _
  have hfac : (0:ℝ) ≤ 1 - glslClamp (1 - |fv.v_displacement| * 2) 0 1
      * u.absorption * 0.5 := by
    nlinarith [mul_nonneg hd0 (sub_nonneg.mpr habs)]
  simp only [absorbedColor, Vec3.scale_x, Vec3.scale_y, Vec3.scale_z]
  exact ⟨mul_nonneg (by norm_num) hfac, mul_nonneg (by norm_num) hfac,
    mul_nonneg (by norm_num) hfac⟩

/-- All channels of the accumulated color reaching the tone-mapping step are
nonnegative, provided the light colors and intensities are nonnegative, the
absorption factor is at most `2`, and the displacement is at least `-20`
(so the surface-variation multiplier stays nonnegative). -/
lemma fragPreTone_comp_nonneg (u : FragUniforms) (fv : FragVarying)
    (hki : 0 ≤ u.keyLightIntensity) (hri : 0 ≤ u.rimLightIntensity)
    (hkc1 : 0 ≤ u.keyLightColor.x) (hkc2 : 0 ≤ u.keyLightColor.y)
    (hkc3 : 0 ≤ u.keyLightColor.z) (hrc1 : 0 ≤ u.rimLightColor.x)
    (hrc2 : 0 ≤ u.rimLightColor.y) (hrc3 : 0 ≤ u.rimLightColor.z)
    (habs : u.absorption ≤ 2) (hdisp : -20 ≤ fv.v_displacement) :
    0 ≤ (fragPreTone u fv).x ∧ 0 ≤ (fragPreTone u fv).y ∧
    0 ≤ (fragPreTone u fv).z := by
  obtain ⟨ha1, ha2, ha3⟩ := absorbedColor_comp_nonneg u fv habs
  obtain ⟨he1, he2, he3⟩ := environmentGradient_comp_nonneg (fragReflectDir u fv)
  have hyn : |(fragNormal fv).y| ≤ 1 := abs_normalize3_y_le_one fv.v_normal
  obtain ⟨hg1, hg2, hg3⟩ := edgeColorMixed_comp_nonneg (fragNormal fv) hyn
  obtain ⟨hk1, hk2, hk3⟩ := keyContribution_comp_nonneg u fv hki hkc1 hkc2 hkc3
  obtain ⟨hr1, hr2, hr3⟩ := rimContribution_comp_nonneg u fv hri hrc1 hrc2 hrc3
  have hf0 : 0 ≤ fresnel (fragViewDir u fv) (fragNormal fv) u.fresnelPower u.fresnelBias :=
    fresnel_nonneg _ _ _ _
  have hmult : (0:ℝ) ≤ 0.95 + (fv.v_displacement * 0.5 + 0.5) * 0.1 := by linarith
  simp only [fragPreTone, Vec3.add_x, Vec3.add_y, Vec3.add_z, Vec3.scale_x,
    Vec3.scale_y, Vec3.scale_z]
  refine ⟨mul_nonneg ?_ hmult, mul_nonneg ?_ hmult, mul_nonneg ?_ hmult⟩
  · exact add_nonneg (add_nonneg (add_nonneg (add_nonneg ha1
      (mul_nonneg he1 (mul_nonneg hf0 (by norm_num))))
      (mul_nonneg hg1 (mul_nonneg (mul_nonneg hf0 hf0) (by norm_num)))) hk1) hr1
  · exact add_nonneg (add_nonneg (add_nonneg (add_nonneg ha2
      (mul_nonneg he2 (mul_nonneg hf0 (by norm_num))))
      (mul_nonneg hg2 (mul_nonneg (mul_nonneg hf0 hf0) (by norm_num)))) hk2) hr2
  · exact add_nonneg (add_nonneg (add_nonneg (add_nonneg ha3
      (mul_nonneg he3 (mul_nonneg hf0 (by norm_num))))
      (mul_nonneg hg3 (mul_nonneg (mul_nonneg hf0 hf0) (by norm_num)))) hk3) hr3

lemma toneMap_comp_mem_unit (c : Vec3 ℝ) (hx : 0 ≤ c.x) (hy : 0 ≤ c.y) (hz : 0 ≤ c.z) :
    (0 ≤ (toneMap c).x ∧ (toneMap c).x ≤ 1) ∧ (0 ≤ (toneMap c).y ∧ (toneMap c).y ≤ 1) ∧
    (0 ≤ (toneMap c).z ∧ (toneMap c).z ≤ 1) := by
  have hq : ∀ t : ℝ, 0 ≤ t → 0 ≤ t / (t + 1) ∧ t / (t + 1) ≤ 1 := by
    intro t ht
    have hp : (0:ℝ) < t + 1 := by linarith
    exact ⟨div_nonneg ht hp.le, by rw [div_le_one hp]; linarith⟩
  obtain ⟨hx0, hx1⟩ := hq c.x hx
  obtain ⟨hy0, hy1⟩ := hq c.y hy
  obtain ⟨hz0, hz1⟩ := hq c.z hz
  simp only [toneMap]
  exact ⟨⟨Real.rpow_nonneg hx0 _, Real.rpow_le_one hx0 hx1 (by norm_num)⟩,
    ⟨Real.rpow_nonneg hy0 _, Real.rpow_le_one hy0 hy1 (by norm_num)⟩,
    ⟨Real.rpow_nonneg hz0 _, Real.rpow_le_one hz0 hz1 (by norm_num)⟩⟩

lemma jsToneMap_comp_mem_unit (c : Vec3 ℝ) :
    (0 ≤ (jsToneMap c).x ∧ (jsToneMap c).x ≤ 1) ∧
    (0 ≤ (jsToneMap c).y ∧ (jsToneMap c).y ≤ 1) ∧
    (0 ≤ (jsToneMap c).z ∧ (jsToneMap c).z ≤ 1) := by
  have h0 : ∀ t : ℝ, 0 ≤ glslClamp t 0 1 := fun t => glslClamp_nonneg t 1 zero_le_one
  have h1 : ∀ t : ℝ, glslClamp t 0 1 ≤ 1 := fun t => glslClamp_le_right t 0 1
  simp only [jsToneMap]
  exact ⟨⟨Real.rpow_nonneg (h0 _) _, Real.rpow_le_one (h0 _) (h1 _) (by norm_num)⟩,
    ⟨Real.rpow_nonneg (h0 _) _, Real.rpow_le_one (h0 _) (h1 _) (by norm_num)⟩,
    ⟨Real.rpow_nonneg (h0 _) _, Real.rpow_le_one (h0 _) (h1 _) (by norm_num)⟩⟩

lemma part000ToneMap_comp_mem_unit (c : Vec3 ℝ) (hx : 0 ≤ c.x) (hy : 0 ≤ c.y)
    (hz : 0 ≤ c.z) :
    (0 ≤ (part000ToneMap c).x ∧ (part000ToneMap c).x ≤ 1) ∧
    (0 ≤ (part000ToneMap c).y ∧ (part000ToneMap c).y ≤ 1) ∧
    (0 ≤ (part000ToneMap c).z ∧ (part000ToneMap c).z ≤ 1) := by
  have hq : ∀ t : ℝ, 0 ≤ t → 0 ≤ t / (t + 0.5) ∧ t / (t + 0.5) ≤ 1 := by
    intro t ht
    have hp : (0:ℝ) < t + 0.5 := by linarith
    exact ⟨div_nonneg ht hp.le, by rw [div_le_one hp]; linarith⟩
  obtain ⟨hx0, hx1⟩ := hq c.x hx
  obtain ⟨hy0, hy1⟩ := hq c.y hy
  obtain ⟨hz0, hz1⟩ := hq c.z hz
  simp only [part000ToneMap]
  exact ⟨⟨Real.rpow_nonneg hx0 _, Real.rpow_le_one hx0 hx1 (by norm_num)⟩,
    ⟨Real.rpow_nonneg hy0 _, Real.rpow_le_one hy0 hy1 (by norm_num)⟩,
    ⟨Real.rpow_nonneg hz0 _, Real.rpow_le_one hz0 hz1 (by norm_num)⟩⟩

/-! ### Unfolding and bound lemmas for `fbm` -/

lemma fbm_one_eq (p : Vec4 K) : fbm p 1 = (0.5 * snoise4 p) / 0.5 := by
  norm_num [fbm, fbmAux]

lemma fbm_two_eq (p : Vec4 K) :
    fbm p 2 = (0.5 * snoise4 p + 0.25 * snoise4 (Vec4.scale 2 p)) / (0.5 + 0.25) := by
  norm_num [fbm, fbmAux]

lemma fbm_three_eq (p : Vec4 K) :
    fbm p 3 = (0.5 * snoise4 p + 0.25 * snoise4 (Vec4.scale 2 p)
      + 0.125 * snoise4 (Vec4.scale 4 p)) / (0.5 + 0.25 + 0.125) := by
  norm_num [fbm, fbmAux]

lemma fbm_four_eq (p : Vec4 K) :
    fbm p 4 = (0.5 * snoise4 p + 0.25 * snoise4 (Vec4.scale 2 p)
      + 0.125 * snoise4 (Vec4.scale 4 p) + 0.0625 * snoise4 (Vec4.scale 8 p))
      / (0.5 + 0.25 + 0.125 + 0.0625) := by
  norm_num [fbm, fbmAux]

lemma abs_fbm_three_le_one (p : Vec4 K) (hs1 : |snoise4 p| ≤ 1)
    (hs2 : |snoise4 (Vec4.scale 2 p)| ≤ 1) (hs3 : |snoise4 (Vec4.scale 4 p)| ≤ 1) :
    |fbm p 3| ≤ 1 := by
  obtain ⟨a1, b1⟩ := abs_le.mp hs1
  obtain ⟨a2, b2⟩ := abs_le.mp hs2
  obtain ⟨a3, b3⟩ := abs_le.mp hs3
  rw [fbm_three_eq, abs_div, abs_of_pos (by norm_num : (0:K) < 0.5 + 0.25 + 0.125),
    div_le_one (by norm_num : (0:K) < 0.5 + 0.25 + 0.125), abs_le]
  constructor <;> nlinarith

lemma abs_fbm_le_one (p : Vec4 K) (octaves : ℤ) (h1 : 1 ≤ octaves) (h4 : octaves ≤ 4)
    (hs1 : |snoise4 p| ≤ 1) (hs2 : |snoise4 (Vec4.scale 2 p)| ≤ 1)
    (hs3 : |snoise4 (Vec4.scale 4 p)| ≤ 1) (hs4 : |snoise4 (Vec4.scale 8 p)| ≤ 1) :
    |fbm p octaves| ≤ 1 := by
  obtain ⟨a1, b1⟩ := abs_le.mp hs1
  obtain ⟨a2, b2⟩ := abs_le.mp hs2
  obtain ⟨a3, b3⟩ := abs_le.mp hs3
  obtain ⟨a4, b4⟩ := abs_le.mp hs4
  interval_cases octaves
  · rw [fbm_one_eq, abs_div, abs_of_pos (by norm_num : (0:K) < 0.5),
      div_le_one (by norm_num : (0:K) < 0.5), abs_le]
    constructor <;> nlinarith
  · rw [fbm_two_eq, abs_div, abs_of_pos (by norm_num : (0:K) < 0.5 + 0.25),
      div_le_one (by norm_num : (0:K) < 0.5 + 0.25), abs_le]
    constructor <;> nlinarith
  · exact abs_fbm_three_le_one p hs1 hs2 hs3
  · rw [fbm_four_eq, abs_div,
      abs_of_pos (by norm_num : (0:K) < 0.5 + 0.25 + 0.125 + 0.0625),
      div_le_one (by norm_num : (0:K) < 0.5 + 0.25 + 0.125 + 0.0625), abs_le]
    constructor <;> nlinarith

/-- The 4D noise vanishes at the origin (exact evaluation over `ℚ`). -/
lemma snoise4_zero : snoise4 (⟨0, 0, 0, 0⟩ : Vec4 ℚ) = 0 := by
  norm_num [snoise4, grad4, mod289v4, mod289s, permuteS, taylorInvSqrtv4, taylorInvSqrtS,
    glslFract, glslFloor, glslStep, glslClamp, dot4, Vec4.scale, min_def, max_def,
    abs_eq_max_neg]

lemma Vec4.scale_zero_vec (s : ℚ) : Vec4.scale s (⟨0, 0, 0, 0⟩ : Vec4 ℚ) = ⟨0, 0, 0, 0⟩ := by
  simp [Vec4.scale]

/-! ### Exact evaluation of the fragment pipeline at the concrete
configuration `cexUniforms` / `cexVarying` -/

lemma fragViewDir_cex : fragViewDir cexUniforms cexVarying = ⟨0, 0, 1⟩ := by
  have h : cexUniforms.cameraPosition - cexVarying.v_worldPosition = (⟨0, 0, 2⟩ : Vec3 ℝ) := by
    ext <;> simp [cexUniforms, cexVarying]
  simp only [fragViewDir]
  rw [h]
  exact normalize3_zc (by norm_num)

lemma fragNormal_cex : fragNormal cexVarying = ⟨0, 0, 1⟩ := by
  have h : cexVarying.v_normal = (⟨0, 0, 1⟩ : Vec3 ℝ) := rfl
  simp only [fragNormal]
  rw [h]
  exact normalize3_zc (by norm_num)

lemma dot3_unit_z : dot3 (⟨0, 0, 1⟩ : Vec3 ℝ) ⟨0, 0, 1⟩ = 1 := by simp [dot3]

lemma specular_head_on : specular (⟨0, 0, 1⟩ : Vec3 ℝ) ⟨0, 0, 1⟩ ⟨0, 0, 1⟩ 0.15 = 1 := by
  simp only [specular]
  have hsum : (⟨0, 0, 1⟩ : Vec3 ℝ) + ⟨0, 0, 1⟩ = ⟨0, 0, 2⟩ := by ext <;> norm_num
  rw [hsum, normalize3_zc (by norm_num : (0:ℝ) < 2), dot3_unit_z,
    max_eq_left zero_le_one, Real.one_rpow]

lemma keyContribution_cex : keyContribution cexUniforms cexVarying = ⟨-95, -95, -95⟩ := by
  have hL : normalize3 (cexUniforms.keyLightPos - cexVarying.v_worldPosition)
      = (⟨0, 0, 1⟩ : Vec3 ℝ) := by
    have h : cexUniforms.keyLightPos - cexVarying.v_worldPosition = (⟨0, 0, 1⟩ : Vec3 ℝ) := by
      ext <;> simp [cexUniforms, cexVarying]
    rw [h]
    exact normalize3_zc (by norm_num)
  simp only [keyContribution]
  rw [hL, fragViewDir_cex, fragNormal_cex, dot3_unit_z, specular_head_on,
    max_eq_left zero_le_one, Real.one_rpow, Real.one_rpow]
  ext <;> simp [cexUniforms] <;> norm_num

lemma rimContribution_cex : rimContribution cexUniforms cexVarying = ⟨0, 0, 0⟩ := by
  ext <;> simp [rimContribution, cexUniforms]

lemma absorbedColor_cex :
    absorbedColor cexUniforms cexVarying = ⟨0.015, 0.018, 0.025⟩ := by
  ext <;> simp [absorbedColor, cexUniforms]

lemma fresnel_head_on_power_one : fresnel (⟨0, 0, 1⟩ : Vec3 ℝ) ⟨0, 0, 1⟩ 1 0 = 0 := by
  simp only [fresnel, dot3_unit_z, max_eq_left zero_le_one, sub_self]
  rw [Real.zero_rpow one_ne_zero]
  norm_num [glslClamp]

lemma fragPreTone_cex_x : (fragPreTone cexUniforms cexVarying).x = -94.985 := by
  simp only [fragPreTone]
  rw [fragViewDir_cex, fragNormal_cex, keyContribution_cex, rimContribution_cex,
    absorbedColor_cex, show cexUniforms.fresnelPower = (1:ℝ) from rfl,
    show cexUniforms.fresnelBias = (0:ℝ) from rfl, fresnel_head_on_power_one]
  simp [cexVarying]
  norm_num

/-! ## Claim theorems -/

/-- Claim C1 (evaluation at a failing input): the claim states that `snoise`
always lies in `[-1.05, 1.05]`.  Under the exact (real-number) semantics of
the shader arithmetic this is false for the 3D variant of `src/main.js`: at
the input `(3/4, -17/4, 7/4)` the noise value exceeds `1.05` (it is about
`4.468`).  The cause is the literal `n_ = 0.142857142857`, which is strictly
less than `1/7`, so the gradient index `y_ = floor(j - 7*x_)` can reach `7`
and select out-of-range gradient vectors of norm far above `1`. -/
theorem snoise3_exceeds_bound_at_failing_input :
    (1.05 : ℚ) < |snoise3 (⟨3 / 4, -17 / 4, 7 / 4⟩ : Vec3 ℚ)| := by
  norm_num [snoise3, glslFloor, glslStep, mod289v3, mod289v4, permutev4, taylorInvSqrtv4,
    dot3, Vec3.scale, min_def, max_def, abs_eq_max_neg]

/-- Claim C2: if the displacement amplitude is `0` then both vertex deformers
output a scalar displacement of exactly `0` and a displaced position equal to
the rest position, for every rest vertex and every time value. -/
theorem deform_zero_amplitude (normalMatrix : Mat3 ℝ) (modelMatrix : Mat4 ℝ)
    (noiseScale viscosity amplitude : ℝ) (position normal : Vec3 ℝ) (time : ℝ)
    (ha : amplitude = 0) :
    (glslVertexMain normalMatrix modelMatrix noiseScale viscosity amplitude position
        normal time).v_displacement = 0 ∧
    (glslVertexMain normalMatrix modelMatrix noiseScale viscosity amplitude position
        normal time).v_position = position ∧
    jsDisplacement amplitude position time = 0 ∧
    (jsVertexMain normalMatrix modelMatrix amplitude position normal time).newPosition
      = position := by
  subst ha
  have hg : glslDisplacement noiseScale viscosity 0 position time = 0 := by
    simp [glslDisplacement]
  have hj : jsDisplacement 0 position time = 0 := by
    simp [jsDisplacement]
  refine ⟨?_, ?_, hj, ?_⟩
  · simp [glslVertexMain, hg]
  · simp only [glslVertexMain, hg]
    ext <;> simp
  · simp only [jsVertexMain, hj]
    ext <;> simp

/-- Witness for C2: the vertex at rest position `(0,1,0)` (top pole) with rest
normal `(0,1,0)`, time `0` and amplitude `0` maps to displaced position
`(0,1,0)` with displacement `0` (identity normal/model matrices). -/
theorem deform_zero_amplitude_witness :
    (glslVertexMain ⟨⟨1, 0, 0⟩, ⟨0, 1, 0⟩, ⟨0, 0, 1⟩⟩
        ⟨⟨1, 0, 0, 0⟩, ⟨0, 1, 0, 0⟩, ⟨0, 0, 1, 0⟩, ⟨0, 0, 0, 1⟩⟩
        1 1 0 ⟨0, 1, 0⟩ ⟨0, 1, 0⟩ 0).v_displacement = 0 ∧
    (glslVertexMain ⟨⟨1, 0, 0⟩, ⟨0, 1, 0⟩, ⟨0, 0, 1⟩⟩
        ⟨⟨1, 0, 0, 0⟩, ⟨0, 1, 0, 0⟩, ⟨0, 0, 1, 0⟩, ⟨0, 0, 0, 1⟩⟩
        1 1 0 ⟨0, 1, 0⟩ ⟨0, 1, 0⟩ 0).v_position = ⟨0, 1, 0⟩ ∧
    jsDisplacement 0 ⟨0, 1, 0⟩ 0 = 0 ∧
    (jsVertexMain ⟨⟨1, 0, 0⟩, ⟨0, 1, 0⟩, ⟨0, 0, 1⟩⟩
        ⟨⟨1, 0, 0, 0⟩, ⟨0, 1, 0, 0⟩, ⟨0, 0, 1, 0⟩, ⟨0, 0, 0, 1⟩⟩
        0 ⟨0, 1, 0⟩ ⟨0, 1, 0⟩ 0).newPosition = ⟨0, 1, 0⟩ :=
  deform_zero_amplitude _ _ _ _ _ _ _ _ rfl

/-- Claim C9 (evaluation at the failing input): the spec requires `normalize`
of a zero-length vector to fall back to a default axis, but the shader calls
GLSL `normalize` with no guard; when the camera position coincides with the
fragment's world position the view-direction computation of
`src/shaders/fragment.glsl` line 72 normalizes the zero vector, which is
undefined in GLSL (NaN on GPUs) rather than any fallback axis. -/
theorem viewDir_zero_vector_undefined :
    glslViewDirOpt ⟨0, 0, 0⟩ ⟨0, 0, 0⟩ = none := by
  norm_num [glslViewDirOpt, glslNormalizeOpt, dot3]

/-- Claim C10: the shading normal emitted by both vertex deformers is exactly
the normalized normal-matrix transform of the (normalized) rest normal, and
is therefore identical across any two runs that differ only in the time value
and/or the displacement amplitude: displacement affects the position but never
the normal used for lighting. -/
theorem v_normal_independent_of_time_and_amplitude (normalMatrix : Mat3 ℝ)
    (modelMatrix : Mat4 ℝ) (noiseScale viscosity : ℝ) (a₁ a₂ : ℝ)
    (position normal : Vec3 ℝ) (t₁ t₂ : ℝ) :
    (glslVertexMain normalMatrix modelMatrix noiseScale viscosity a₁ position normal
        t₁).v_normal = normalize3 (Mat3.mulVec normalMatrix (normalize3 normal)) ∧
    (glslVertexMain normalMatrix modelMatrix noiseScale viscosity a₁ position normal
        t₁).v_normal
      = (glslVertexMain normalMatrix modelMatrix noiseScale viscosity a₂ position normal
        t₂).v_normal ∧
    (jsVertexMain normalMatrix modelMatrix a₁ position normal t₁).v_normal
      = normalize3 (Mat3.mulVec normalMatrix (normalize3 normal)) ∧
    (jsVertexMain normalMatrix modelMatrix a₁ position normal t₁).v_smoothNormal
      = (jsVertexMain normalMatrix modelMatrix a₂ position normal t₂).v_normal :=
  ⟨rfl, rfl, rfl, rfl⟩

/-- Claim C3: for every vertex, time and (nonnegative) amplitude, the bias
scalar of the 4D deformer is clamped to `[0.6, 1.2]`, and whenever the noise
samples entering the displacement lie in `[-1, 1]` the magnitude of the
scalar displacement is bounded by
`amplitude × (max bias) × (sum of term weights) = amplitude × 1.2 × (1 + 0.15)`
— a bound independent of the time value, so displacement never grows
unboundedly as time increases. -/
theorem displacement_bias_clamped_and_bounded (noiseScale viscosity amplitude time : K)
    (pos : Vec3 K) (hamp : 0 ≤ amplitude)
    (h1 : |snoise4 (glslNoiseInput noiseScale pos (time * viscosity))| ≤ 1)
    (h2 : |snoise4 (Vec4.scale 2 (glslNoiseInput noiseScale pos (time * viscosity)))| ≤ 1)
    (h3 : |snoise4 (Vec4.scale 4 (glslNoiseInput noiseScale pos (time * viscosity)))| ≤ 1)
    (hd : |snoise4 (glslDetailInput noiseScale pos (time * viscosity))| ≤ 1) :
    0.6 ≤ verticalBias pos ∧ verticalBias pos ≤ 1.2 ∧
    |glslDisplacement noiseScale viscosity amplitude pos time|
      ≤ amplitude * 1.2 * (1 + 0.15) := by
  have hb0 : (0.6 : K) ≤ verticalBias pos := left_le_glslClamp _ (by norm_num)
  have hb1 : verticalBias pos ≤ 1.2 := glslClamp_le_right _ _ _
  refine ⟨hb0, hb1, ?_⟩
  have hfbm : |fbm (glslNoiseInput noiseScale pos (time * viscosity)) 3| ≤ 1 :=
    abs_fbm_three_le_one _ h1 h2 h3
  have hsum : |fbm (glslNoiseInput noiseScale pos (time * viscosity)) 3
      + snoise4 (glslDetailInput noiseScale pos (time * viscosity)) * 0.15|
      ≤ 1 + 0.15 := by
    calc |fbm (glslNoiseInput noiseScale pos (time * viscosity)) 3
        + snoise4 (glslDetailInput noiseScale pos (time * viscosity)) * 0.15|
        ≤ |fbm (glslNoiseInput noiseScale pos (time * viscosity)) 3|
          + |snoise4 (glslDetailInput noiseScale pos (time * viscosity)) * 0.15| :=
          abs_add _ _
      _ ≤ 1 + 0.15 := by
          rw [abs_mul, abs_of_pos (by norm_num : (0:K) < 0.15)]
          have := abs_nonneg (snoise4 (glslDetailInput noiseScale pos (time * viscosity)))
          nlinarith
  simp only [glslDisplacement]
  rw [abs_mul, abs_mul, abs_of_nonneg hamp,
    abs_of_nonneg (le_trans (by norm_num : (0:K) ≤ 0.6) hb0)]
  have hbn : (0 : K) ≤ verticalBias pos := le_trans (by norm_num) hb0
  have s1 : |fbm (glslNoiseInput noiseScale pos (time * viscosity)) 3
      + snoise4 (glslDetailInput noiseScale pos (time * viscosity)) * 0.15| * amplitude
      ≤ (1 + 0.15) * amplitude := mul_le_mul_of_nonneg_right hsum hamp
  have s2 : |fbm (glslNoiseInput noiseScale pos (time * viscosity)) 3
      + snoise4 (glslDetailInput noiseScale pos (time * viscosity)) * 0.15| * amplitude
      * verticalBias pos ≤ (1 + 0.15) * amplitude * verticalBias pos :=
    mul_le_mul_of_nonneg_right s1 hbn
  have s3 : (1 + 0.15) * amplitude * verticalBias pos ≤ (1 + 0.15) * amplitude * 1.2 :=
    mul_le_mul_of_nonneg_left hb1 (by positivity)
  nlinarith [s2, s3]

/-- Witness for C3: at the origin vertex with noise scale `0`, viscosity `1`,
amplitude `1` and time `0` (over `ℚ`, where the noise samples evaluate
exactly), the bias is clamped into `[0.6, 1.2]` and the displacement obeys
the `amplitude × 1.2 × 1.15` bound. -/
theorem displacement_bias_clamped_and_bounded_witness :
    (0.6 : ℚ) ≤ verticalBias ⟨0, 0, 0⟩ ∧ verticalBias (⟨0, 0, 0⟩ : Vec3 ℚ) ≤ 1.2 ∧
    |glslDisplacement (0 : ℚ) 1 1 ⟨0, 0, 0⟩ 0| ≤ 1 * 1.2 * (1 + 0.15) := by
  have hni : glslNoiseInput (0 : ℚ) ⟨0, 0, 0⟩ (0 * 1) = ⟨0, 0, 0, 0⟩ := by
    simp [glslNoiseInput, horizontalScale]
  have hdi : glslDetailInput (0 : ℚ) ⟨0, 0, 0⟩ (0 * 1) = ⟨0, 0, 0, 0⟩ := by
    simp [glslDetailInput]
  refine displacement_bias_clamped_and_bounded 0 1 1 0 ⟨0, 0, 0⟩ (by norm_num) ?_ ?_ ?_ ?_
  · rw [hni, snoise4_zero]
    norm_num
  · rw [hni, Vec4.scale_zero_vec, snoise4_zero]
    norm_num
  · rw [hni, Vec4.scale_zero_vec, snoise4_zero]
    norm_num
  · rw [hdi, snoise4_zero]
    norm_num

/-- Claim C8: `fbm` sums its octaves with amplitude halved and frequency
doubled per octave and divides by the total accumulated amplitude (shown
explicitly for 3 and 4 octaves), and for every octave count from 1 to 4 the
output lies in `[-1, 1]` whenever the underlying `snoise` samples lie in
`[-1, 1]` — the bound is independent of the octave count. -/
theorem fbm_octave_structure_and_bound (p : Vec4 K) (octaves : ℤ)
    (h1 : 1 ≤ octaves) (h4 : octaves ≤ 4)
    (hs1 : |snoise4 p| ≤ 1) (hs2 : |snoise4 (Vec4.scale 2 p)| ≤ 1)
    (hs3 : |snoise4 (Vec4.scale 4 p)| ≤ 1) (hs4 : |snoise4 (Vec4.scale 8 p)| ≤ 1) :
    fbm p 3 = (0.5 * snoise4 p + 0.25 * snoise4 (Vec4.scale 2 p)
      + 0.125 * snoise4 (Vec4.scale 4 p)) / (0.5 + 0.25 + 0.125) ∧
    fbm p 4 = (0.5 * snoise4 p + 0.25 * snoise4 (Vec4.scale 2 p)
      + 0.125 * snoise4 (Vec4.scale 4 p) + 0.0625 * snoise4 (Vec4.scale 8 p))
      / (0.5 + 0.25 + 0.125 + 0.0625) ∧
    |fbm p octaves| ≤ 1 :=
  ⟨fbm_three_eq p, fbm_four_eq p, abs_fbm_le_one p octaves h1 h4 hs1 hs2 hs3 hs4⟩

/-- Witness for C8 at the origin over `ℚ` with 3 octaves. -/
theorem fbm_octave_structure_and_bound_witness :
    fbm (⟨0, 0, 0, 0⟩ : Vec4 ℚ) 3 = (0.5 * snoise4 (⟨0, 0, 0, 0⟩ : Vec4 ℚ)
      + 0.25 * snoise4 (Vec4.scale 2 (⟨0, 0, 0, 0⟩ : Vec4 ℚ))
      + 0.125 * snoise4 (Vec4.scale 4 (⟨0, 0, 0, 0⟩ : Vec4 ℚ))) / (0.5 + 0.25 + 0.125) ∧
    fbm (⟨0, 0, 0, 0⟩ : Vec4 ℚ) 4 = (0.5 * snoise4 (⟨0, 0, 0, 0⟩ : Vec4 ℚ)
      + 0.25 * snoise4 (Vec4.scale 2 (⟨0, 0, 0, 0⟩ : Vec4 ℚ))
      + 0.125 * snoise4 (Vec4.scale 4 (⟨0, 0, 0, 0⟩ : Vec4 ℚ))
      + 0.0625 * snoise4 (Vec4.scale 8 (⟨0, 0, 0, 0⟩ : Vec4 ℚ)))
      / (0.5 + 0.25 + 0.125 + 0.0625) ∧
    |fbm (⟨0, 0, 0, 0⟩ : Vec4 ℚ) 3| ≤ 1 := by
  have hz : ∀ s : ℚ, |snoise4 (Vec4.scale s (⟨0, 0, 0, 0⟩ : Vec4 ℚ))| ≤ 1 := by
    intro s
    rw [Vec4.scale_zero_vec, snoise4_zero]
    norm_num
  refine fbm_octave_structure_and_bound _ 3 (by norm_num) (by norm_num) ?_ (hz 2) (hz 4) (hz 8)
  rw [snoise4_zero]
  norm_num

/-- Claim C6: for `power > 0` and `bias ∈ [0, 1]`, the Fresnel term equals
`bias` head-on (`normal = view`, unit length), always lies in `[0, 1]`, and
tends to `1` as the view-normal dot product tends to `0` (grazing), shown
along the family of unit view directions `(d, sqrt(1-d^2), 0)` against the
unit normal `(1, 0, 0)`, whose dot product is `d`. -/
theorem fresnel_head_on_grazing_and_bounds (power bias : ℝ) (v n : Vec3 ℝ)
    (hp : 0 < power) (hb0 : 0 ≤ bias) (hb1 : bias ≤ 1) (hn : dot3 n n = 1) :
    fresnel n n power bias = bias ∧
    (0 ≤ fresnel v n power bias ∧ fresnel v n power bias ≤ 1) ∧
    Filter.Tendsto
      (fun d : ℝ => fresnel ⟨d, Real.sqrt (1 - d * d), 0⟩ ⟨1, 0, 0⟩ power bias)
      (nhds 0) (nhds 1) := by
  refine ⟨?_, ⟨?_, ?_⟩, ?_⟩
  · have h1 : max (dot3 n n) 0 = 1 := by rw [hn]; norm_num
    simp only [fresnel, h1, sub_self]
    rw [Real.zero_rpow hp.ne']
    simp only [glslClamp, mul_zero, add_zero]
    rw [max_eq_left hb0, min_eq_left hb1]
  · simp only [fresnel]
    exact glslClamp_nonneg _ _ zero_le_one
  · simp only [fresnel]
    exact glslClamp_le_right _ _ _
  · have heq : (fun d : ℝ => fresnel ⟨d, Real.sqrt (1 - d * d), 0⟩ ⟨1, 0, 0⟩ power bias)
        = fun d : ℝ => glslClamp (bias + (1 - bias) * (1 - max d 0) ^ power) 0 1 := by
      funext d
      simp only [fresnel, dot3]
      norm_num
    rw [heq]
    have hc : Filter.Tendsto (fun d : ℝ => 1 - max d 0) (nhds 0) (nhds 1) := by
      have hcont : Continuous fun d : ℝ => 1 - max d 0 :=
        continuous_const.sub (continuous_id.max continuous_const)
      have h0 := hcont.tendsto 0
      simpa using h0
    have hrpow : ContinuousAt (fun x : ℝ => x ^ power) 1 :=
      Real.continuousAt_rpow_const 1 power (Or.inl one_ne_zero)
    have h1 : Filter.Tendsto (fun d : ℝ => (1 - max d 0) ^ power) (nhds 0) (nhds 1) := by
      have := hrpow.tendsto.comp hc
      simpa [Function.comp, Real.one_rpow] using this
    have h2 : Filter.Tendsto (fun d : ℝ => bias + (1 - bias) * (1 - max d 0) ^ power)
        (nhds 0) (nhds (bias + (1 - bias) * 1)) :=
      Filter.Tendsto.add tendsto_const_nhds (Filter.Tendsto.mul tendsto_const_nhds h1)
    have e : bias + (1 - bias) * 1 = 1 := by ring
    rw [e] at h2
    have h3 : Filter.Tendsto (fun y : ℝ => glslClamp y 0 1) (nhds 1) (nhds 1) := by
      have hcont : Continuous fun y : ℝ => glslClamp y 0 1 := by
        simp only [glslClamp]
        exact (continuous_id.max continuous_const).min continuous_const
      have := hcont.tendsto 1
      simpa [glslClamp] using this
    exact h3.comp h2

/-- Witness for C6 at `power = 2`, `bias = 1/2`, view `(0,1,0)`, normal
`(0,0,1)`. -/
theorem fresnel_head_on_grazing_and_bounds_witness :
    fresnel ⟨0, 0, 1⟩ ⟨0, 0, 1⟩ 2 (1 / 2) = 1 / 2 ∧
    (0 ≤ fresnel ⟨0, 1, 0⟩ ⟨0, 0, 1⟩ 2 (1 / 2) ∧
      fresnel ⟨0, 1, 0⟩ ⟨0, 0, 1⟩ 2 (1 / 2) ≤ 1) ∧
    Filter.Tendsto
      (fun d : ℝ => fresnel ⟨d, Real.sqrt (1 - d * d), 0⟩ ⟨1, 0, 0⟩ 2 (1 / 2))
      (nhds 0) (nhds 1) :=
  fresnel_head_on_grazing_and_bounds 2 (1 / 2) ⟨0, 1, 0⟩ ⟨0, 0, 1⟩ (by norm_num)
    (by norm_num) (by norm_num) (by norm_num [dot3])

/-- Claim C4 (counterexample to the claim as stated): with a negative key
light intensity — the uniforms are unconstrained configuration inputs — a
channel of the accumulated color reaching the tone-mapping step is negative. -/
theorem fragPreTone_negative_channel_at_cex :
    (fragPreTone cexUniforms cexVarying).x < 0 := by
  rw [fragPreTone_cex_x]
  norm_num

/-- Claim C4 (amended): every channel of the accumulated color reaching the
tone-mapping step of the fragment shader is nonnegative, provided the light
colors and intensities are nonnegative, the absorption factor is at most `2`,
and the displacement is at least `-20` (so the surface-variation multiplier
is nonnegative). -/
theorem fragPreTone_nonneg_of_sane_config (u : FragUniforms) (fv : FragVarying)
    (hki : 0 ≤ u.keyLightIntensity) (hri : 0 ≤ u.rimLightIntensity)
    (hkc1 : 0 ≤ u.keyLightColor.x) (hkc2 : 0 ≤ u.keyLightColor.y)
    (hkc3 : 0 ≤ u.keyLightColor.z) (hrc1 : 0 ≤ u.rimLightColor.x)
    (hrc2 : 0 ≤ u.rimLightColor.y) (hrc3 : 0 ≤ u.rimLightColor.z)
    (habs : u.absorption ≤ 2) (hdisp : -20 ≤ fv.v_displacement) :
    0 ≤ (fragPreTone u fv).x ∧ 0 ≤ (fragPreTone u fv).y ∧
    0 ≤ (fragPreTone u fv).z :=
  fragPreTone_comp_nonneg u fv hki hri hkc1 hkc2 hkc3 hrc1 hrc2 hrc3 habs hdisp

/-- Witness for the amended C4 at a concrete sane configuration. -/
theorem fragPreTone_nonneg_of_sane_config_witness :
    0 ≤ (fragPreTone ⟨⟨0, 0, 2⟩, ⟨0, 0, 1⟩, ⟨0, 0, 1⟩, ⟨1, 1, 1⟩, ⟨1, 1, 1⟩,
        1, 1, 2, 0.1, 1⟩ ⟨⟨0, 0, 1⟩, ⟨0, 0, 0⟩, 0⟩).x ∧
    0 ≤ (fragPreTone ⟨⟨0, 0, 2⟩, ⟨0, 0, 1⟩, ⟨0, 0, 1⟩, ⟨1, 1, 1⟩, ⟨1, 1, 1⟩,
        1, 1, 2, 0.1, 1⟩ ⟨⟨0, 0, 1⟩, ⟨0, 0, 0⟩, 0⟩).y ∧
    0 ≤ (fragPreTone ⟨⟨0, 0, 2⟩, ⟨0, 0, 1⟩, ⟨0, 0, 1⟩, ⟨1, 1, 1⟩, ⟨1, 1, 1⟩,
        1, 1, 2, 0.1, 1⟩ ⟨⟨0, 0, 1⟩, ⟨0, 0, 0⟩, 0⟩).z :=
  fragPreTone_nonneg_of_sane_config _ _ (by norm_num) (by norm_num) (by norm_num)
    (by norm_num) (by norm_num) (by norm_num) (by norm_num) (by norm_num)
    (by norm_num) (by norm_num)

/-- Claim C5 (counterexample to the claim as stated): at the same negative
key-light configuration the pre-tone-map channel is below `-1`, the Reinhard
quotient `c/(c+1)` exceeds `1`, and so does the final output channel after
the contrast exponent — the output does not lie in `[0, 1]`. -/
theorem fragMain_exceeds_one_at_cex : 1 < (fragMain cexUniforms cexVarying).x := by
  have hx : (fragMain cexUniforms cexVarying).x
      = ((-94.985 : ℝ) / (-94.985 + 1)) ^ (1.05 : ℝ) := by
    simp only [fragMain, toneMap]
    rw [fragPreTone_cex_x]
  rw [hx, Real.one_lt_rpow_iff_of_pos (by norm_num)]
  left
  constructor <;> norm_num

/-- Claim C5 (amended), for all three tone-mapping paths named by the claim:
(a) the GLSL fragment shader (Reinhard `c/(c+1)` followed by the contrast
exponent `1.05`) outputs channels in `[0, 1]` under the same nonnegativity
conditions as the amended C4; (b) the `src/main.js` tone mapper (filmic
curve clamped to `[0, 1]`, then the per-channel exponents `0.9/0.95/1.0`)
outputs channels in `[0, 1]` unconditionally, for every accumulated color;
(c) the `src/unnamed/part_000` tone mapper (`c/(c+0.5)` then the exponents
`0.92/0.95/1.0`) outputs channels in `[0, 1]` whenever the accumulated color
entering it is nonnegative in every channel. -/
theorem fragMain_in_unit_interval_of_sane_config (u : FragUniforms) (fv : FragVarying)
    (hki : 0 ≤ u.keyLightIntensity) (hri : 0 ≤ u.rimLightIntensity)
    (hkc1 : 0 ≤ u.keyLightColor.x) (hkc2 : 0 ≤ u.keyLightColor.y)
    (hkc3 : 0 ≤ u.keyLightColor.z) (hrc1 : 0 ≤ u.rimLightColor.x)
    (hrc2 : 0 ≤ u.rimLightColor.y) (hrc3 : 0 ≤ u.rimLightColor.z)
    (habs : u.absorption ≤ 2) (hdisp : -20 ≤ fv.v_displacement) :
    ((0 ≤ (fragMain u fv).x ∧ (fragMain u fv).x ≤ 1) ∧
      (0 ≤ (fragMain u fv).y ∧ (fragMain u fv).y ≤ 1) ∧
      (0 ≤ (fragMain u fv).z ∧ (fragMain u fv).z ≤ 1)) ∧
    (∀ c : Vec3 ℝ,
      (0 ≤ (jsToneMap c).x ∧ (jsToneMap c).x ≤ 1) ∧
      (0 ≤ (jsToneMap c).y ∧ (jsToneMap c).y ≤ 1) ∧
      (0 ≤ (jsToneMap c).z ∧ (jsToneMap c).z ≤ 1)) ∧
    (∀ c : Vec3 ℝ, 0 ≤ c.x → 0 ≤ c.y → 0 ≤ c.z →
      (0 ≤ (part000ToneMap c).x ∧ (part000ToneMap c).x ≤ 1) ∧
      (0 ≤ (part000ToneMap c).y ∧ (part000ToneMap c).y ≤ 1) ∧
      (0 ≤ (part000ToneMap c).z ∧ (part000ToneMap c).z ≤ 1)) := by
  obtain ⟨hx, hy, hz⟩ :=
    fragPreTone_comp_nonneg u fv hki hri hkc1 hkc2 hkc3 hrc1 hrc2 hrc3 habs hdisp
  refine ⟨?_, jsToneMap_comp_mem_unit, part000ToneMap_comp_mem_unit⟩
  simp only [fragMain]
  exact toneMap_comp_mem_unit _ hx hy hz

/-- Witness for the amended C5 at a concrete sane configuration. -/
theorem fragMain_in_unit_interval_of_sane_config_witness :
    ((0 ≤ (fragMain ⟨⟨0, 0, 2⟩, ⟨0, 0, 1⟩, ⟨0, 0, 1⟩, ⟨1, 1, 1⟩, ⟨1, 1, 1⟩,
        1, 1, 2, 0.1, 1⟩ ⟨⟨0, 0, 1⟩, ⟨0, 0, 0⟩, 0⟩).x ∧
      (fragMain ⟨⟨0, 0, 2⟩, ⟨0, 0, 1⟩, ⟨0, 0, 1⟩, ⟨1, 1, 1⟩, ⟨1, 1, 1⟩,
        1, 1, 2, 0.1, 1⟩ ⟨⟨0, 0, 1⟩, ⟨0, 0, 0⟩, 0⟩).x ≤ 1) ∧
    (0 ≤ (fragMain ⟨⟨0, 0, 2⟩, ⟨0, 0, 1⟩, ⟨0, 0, 1⟩, ⟨1, 1, 1⟩, ⟨1, 1, 1⟩,
        1, 1, 2, 0.1, 1⟩ ⟨⟨0, 0, 1⟩, ⟨0, 0, 0⟩, 0⟩).y ∧
      (fragMain ⟨⟨0, 0, 2⟩, ⟨0, 0, 1⟩, ⟨0, 0, 1⟩, ⟨1, 1, 1⟩, ⟨1, 1, 1⟩,
        1, 1, 2, 0.1, 1⟩ ⟨⟨0, 0, 1⟩, ⟨0, 0, 0⟩, 0⟩).y ≤ 1) ∧
    (0 ≤ (fragMain ⟨⟨0, 0, 2⟩, ⟨0, 0, 1⟩, ⟨0, 0, 1⟩, ⟨1, 1, 1⟩, ⟨1, 1, 1⟩,
        1, 1, 2, 0.1, 1⟩ ⟨⟨0, 0, 1⟩, ⟨0, 0, 0⟩, 0⟩).z ∧
      (fragMain ⟨⟨0, 0, 2⟩, ⟨0, 0, 1⟩, ⟨0, 0, 1⟩, ⟨1, 1, 1⟩, ⟨1, 1, 1⟩,
        1, 1, 2, 0.1, 1⟩ ⟨⟨0, 0, 1⟩, ⟨0, 0, 0⟩, 0⟩).z ≤ 1)) ∧
    (∀ c : Vec3 ℝ,
      (0 ≤ (jsToneMap c).x ∧ (jsToneMap c).x ≤ 1) ∧
      (0 ≤ (jsToneMap c).y ∧ (jsToneMap c).y ≤ 1) ∧
      (0 ≤ (jsToneMap c).z ∧ (jsToneMap c).z ≤ 1)) ∧
    (∀ c : Vec3 ℝ, 0 ≤ c.x → 0 ≤ c.y → 0 ≤ c.z →
      (0 ≤ (part000ToneMap c).x ∧ (part000ToneMap c).x ≤ 1) ∧
      (0 ≤ (part000ToneMap c).y ∧ (part000ToneMap c).y ≤ 1) ∧
      (0 ≤ (part000ToneMap c).z ∧ (part000ToneMap c).z ≤ 1)) :=
  fragMain_in_unit_interval_of_sane_config _ _ (by norm_num) (by norm_num) (by norm_num)
    (by norm_num) (by norm_num) (by norm_num) (by norm_num) (by norm_num)
    (by norm_num) (by norm_num)

/-- Claim C7: for a head-on fragment (`normal = view = (0,0,1)`) with all
light intensities `0`, the key contribution is the zero vector, the rim
contribution is the zero vector for ANY rim intensity (its Fresnel gating
factor `1 - max(dot(N,V),0)` vanishes at this angle), and the final color is
exactly the tone-mapped composite of the internal absorbed core color, the
Fresnel-weighted ambient environment term and the Fresnel edge tint —
independent of the specular and rim terms. -/
theorem head_on_zero_lights_core_plus_env (u : FragUniforms) (fv : FragVarying)
    (c : ℝ) (hc : 0 < c) (hki : u.keyLightIntensity = 0)
    (hri : u.rimLightIntensity = 0) (hn : fv.v_normal = ⟨0, 0, 1⟩)
    (hcam : u.cameraPosition = fv.v_worldPosition + ⟨0, 0, c⟩) :
    keyContribution u fv = ⟨0, 0, 0⟩ ∧
    (∀ r : ℝ, rimContribution { u with rimLightIntensity := r } fv = ⟨0, 0, 0⟩) ∧
    fragMain u fv = toneMap (Vec3.scale (0.95 + (fv.v_displacement * 0.5 + 0.5) * 0.1)
      (absorbedColor u fv
        + Vec3.scale (fresnel ⟨0, 0, 1⟩ ⟨0, 0, 1⟩ u.fresnelPower u.fresnelBias * 0.6)
            (environmentGradient ⟨0, 0, 1⟩)
        + Vec3.scale (fresnel ⟨0, 0, 1⟩ ⟨0, 0, 1⟩ u.fresnelPower u.fresnelBias
            * fresnel ⟨0, 0, 1⟩ ⟨0, 0, 1⟩ u.fresnelPower u.fresnelBias * 0.4)
            (edgeColorMixed ⟨0, 0, 1⟩))) := by
  have hsub : u.cameraPosition - fv.v_worldPosition = (⟨0, 0, c⟩ : Vec3 ℝ) := by
    rw [hcam]
    ext <;> simp
  have hV : fragViewDir u fv = ⟨0, 0, 1⟩ := by
    simp only [fragViewDir]
    rw [hsub]
    exact normalize3_zc hc
  have hN : fragNormal fv = ⟨0, 0, 1⟩ := by
    simp only [fragNormal]
    rw [hn]
    exact normalize3_zc (by norm_num)
  have hR : fragReflectDir u fv = ⟨0, 0, 1⟩ := by
    simp only [fragReflectDir]
    rw [hV, hN]
    ext <;> simp [reflect3, dot3]
    norm_num
  have hkey : keyContribution u fv = ⟨0, 0, 0⟩ := by
    ext <;> simp [keyContribution, hki]
  have hrim : ∀ r : ℝ, rimContribution { u with rimLightIntensity := r } fv = ⟨0, 0, 0⟩ := by
    intro r
    have hV' : fragViewDir { u with rimLightIntensity := r } fv = ⟨0, 0, 1⟩ := by
      simp only [fragViewDir]
      rw [show ({ u with rimLightIntensity := r } : FragUniforms).cameraPosition
        = u.cameraPosition from rfl, hsub]
      exact normalize3_zc hc
    have hmask : dot3 (fragViewDir { u with rimLightIntensity := r } fv)
        (fragNormal fv) = 1 := by
      rw [hV', hN, dot3_unit_z]
    ext <;> simp [rimContribution, hmask, Real.zero_rpow]
  have hrim0 : rimContribution u fv = ⟨0, 0, 0⟩ := by
    ext <;> simp [rimContribution, hri]
  refine ⟨hkey, hrim, ?_⟩
  simp only [fragMain, fragPreTone]
  rw [hV, hN, hR, hkey, hrim0]
  congr 1
  ext <;> simp

/-- Witness for C7 at a concrete head-on configuration with zero light
intensities. -/
theorem head_on_zero_lights_core_plus_env_witness :
    keyContribution ⟨⟨0, 0, 1⟩, ⟨0, 0, 1⟩, ⟨0, 0, 1⟩, ⟨1, 1, 1⟩, ⟨1, 1, 1⟩,
        0, 0, 2, 0.1, 1⟩ ⟨⟨0, 0, 1⟩, ⟨0, 0, 0⟩, 0⟩ = ⟨0, 0, 0⟩ ∧
    (∀ r : ℝ, rimContribution { (⟨⟨0, 0, 1⟩, ⟨0, 0, 1⟩, ⟨0, 0, 1⟩, ⟨1, 1, 1⟩, ⟨1, 1, 1⟩,
        0, 0, 2, 0.1, 1⟩ : FragUniforms) with rimLightIntensity := r }
        ⟨⟨0, 0, 1⟩, ⟨0, 0, 0⟩, 0⟩ = ⟨0, 0, 0⟩) ∧
    fragMain ⟨⟨0, 0, 1⟩, ⟨0, 0, 1⟩, ⟨0, 0, 1⟩, ⟨1, 1, 1⟩, ⟨1, 1, 1⟩,
        0, 0, 2, 0.1, 1⟩ ⟨⟨0, 0, 1⟩, ⟨0, 0, 0⟩, 0⟩
      = toneMap (Vec3.scale (0.95 + ((0:ℝ) * 0.5 + 0.5) * 0.1)
        (absorbedColor ⟨⟨0, 0, 1⟩, ⟨0, 0, 1⟩, ⟨0, 0, 1⟩, ⟨1, 1, 1⟩, ⟨1, 1, 1⟩,
            0, 0, 2, 0.1, 1⟩ ⟨⟨0, 0, 1⟩, ⟨0, 0, 0⟩, 0⟩
          + Vec3.scale (fresnel ⟨0, 0, 1⟩ ⟨0, 0, 1⟩ 2 0.1 * 0.6)
              (environmentGradient ⟨0, 0, 1⟩)
          + Vec3.scale (fresnel ⟨0, 0, 1⟩ ⟨0, 0, 1⟩ 2 0.1
              * fresnel ⟨0, 0, 1⟩ ⟨0, 0, 1⟩ 2 0.1 * 0.4)
              (edgeColorMixed ⟨0, 0, 1⟩))) :=
  head_on_zero_lights_core_plus_env _ _ 1 (by norm_num) rfl rfl rfl
    (by ext <;> norm_num)

end GoldLiquid
